import Mathlib

/-!
Shallow embedding of the SystemX router core.

The definitions below are translated from the repository sources:
the wake-on-ring capable `SystemXRouter` in `src/router.ts`, together with
`ConnectionRegistry` (`src/connection.ts`), `CallManager` (`src/call.ts`)
and `isValidAddress` (`src/utils.ts`).

Modelling conventions:
* JavaScript `Map`s are insertion-ordered association lists (`aget`, `aset`,
  `adel`, `amod` mirror `get`, `set`, `delete` and in-place field mutation).
* `ConnectionContext` objects are mutable and shared by reference between the
  registry, the call table and pending wake calls.  We model the object heap as
  an association list keyed by `sessionId` (`RouterState.conns`) that is never
  shrunk, while the registry's `connectionsBySession` key set is the list
  `RouterState.sessions`; `connectionsByAddress` stores session ids.  Object
  identity (`===`) on connections becomes equality of session ids, and
  `randomUUID` freshness is reflected by guarding connection creation.
* JavaScript numbers appearing in data (JSON payloads, timeout seconds) are
  rationals; clock values (`Date.now()`) are integers threaded into each event.
* `setTimeout` handles are not modelled; an armed ring timer is membership of
  the call id in `callTimers`, an armed wake timer is recorded as the delay
  stored in the pending call, and timer firing is a separate `Event`.
* The only floating-point computation, `haversineDistanceKm`, is modelled as an
  abstract function supplied in `RouterOpts`; no claim depends on its values.
* Outbound `transport.send` calls, `WakeExecutor.wake` invocations and
  `transport.close` calls are collected in order in a `List Out`.
-/

namespace SystemX

/-- Lookup in an insertion-ordered association list; models JS `Map.get`
(returns the first binding of the key). -/
def aget {α : Type} : List (String × α) → String → Option α
  | [], _ => none
  | (k', v) :: rest, k => if k' = k then some v else aget rest k

/-- Insert or replace; models JS `Map.set` (replaces an existing binding in
place, otherwise appends at the end, preserving insertion order). -/
def aset {α : Type} : List (String × α) → String → α → List (String × α)
  | [], k, v => [(k, v)]
  | (k', v') :: rest, k, v =>
    if k' = k then (k', v) :: rest else (k', v') :: aset rest k v

/-- Delete; models JS `Map.delete` (removes the first binding of the key). -/
def adel {α : Type} : List (String × α) → String → List (String × α)
  | [], _ => []
  | (k', v') :: rest, k => if k' = k then rest else (k', v') :: adel rest k

/-- In-place update of the value bound to a key, when present; models mutating
the fields of an object stored in a JS `Map`. -/
def amod {α : Type} : List (String × α) → String → (α → α) → List (String × α)
  | [], _, _ => []
  | (k', v') :: rest, k, f =>
    if k' = k then (k', f v') :: rest else (k', v') :: amod rest k f

/-- JSON-like values carried in `metadata` and `data` fields
(JS numbers modelled as rationals). -/
inductive JVal : Type where
  | null : JVal
  | bool (b : Bool) : JVal
  | num (q : ℚ) : JVal
  | str (s : String) : JVal
  | arr (elems : List JVal) : JVal
  | obj (fields : List (String × JVal)) : JVal

/-- JS truthiness of a JSON value (`NaN` is not representable here). -/
def JVal.truthy : JVal → Bool
  | .null => false
  | .bool b => b
  | .num q => q != 0
  | .str s => s != ""
  | .arr _ => true
  | .obj _ => true

/-- Property access on a JSON object (`undefined` for non-objects). -/
def JVal.getField : JVal → String → Option JVal
  | .obj fields, k => aget fields k
  | _, _ => none

/-- JS truthiness of an optional string field such as `connection.address`
(`undefined` and the empty string are falsy). -/
def addrTruthy : Option String → Bool
  | none => false
  | some a => a != ""

/-- Presence status (`types.ts` `PresenceStatus`). -/
inductive PStatus : Type where
  | available : PStatus
  | busy : PStatus
  | dnd : PStatus
  | away : PStatus
deriving DecidableEq, Repr

/-- Membership test in `VALID_STATUSES` plus decoding of the status string. -/
def parseStatus (s : String) : Option PStatus :=
  if s = "available" then some .available
  else if s = "busy" then some .busy
  else if s = "dnd" then some .dnd
  else if s = "away" then some .away
  else none

/-- `types.ts` `WakeHandlerConfig`. -/
inductive WakeHandler : Type where
  | webhook (url : String) (timeout_seconds : ℚ) (payload : Option JVal) : WakeHandler
  | spawn (command : List String) (timeout_seconds : ℚ) : WakeHandler

/-- The `timeout_seconds` field common to both handler shapes. -/
def WakeHandler.timeoutSeconds : WakeHandler → ℚ
  | .webhook _ t _ => t
  | .spawn _ t => t

/-- `wake.ts` `WakeProfile`. -/
structure WakeProfile : Type where
  address : String
  handler : WakeHandler

/-- The `autoSleep` configuration stored on a connection. -/
structure AutoSleepCfg : Type where
  idleTimeoutSeconds : ℚ
  wakeOnRing : Bool

/-- `connection.ts` `ConnectionContext`.  The `transport` is identified by the
session id (frames to it are emitted as `Out.send sessionId frame`); the
`id` field always equals `sessionId` for router-created connections and the
transient idle timers are events, so neither is stored.  `wakeMode` is `true`
exactly when the TS field holds `"wake_on_ring"` (its only possible value). -/
structure Conn : Type where
  sessionId : String
  address : Option String := none
  status : PStatus := .available
  metadata : Option JVal := none
  lastHeartbeat : Int := 0
  activeCallId : Option String := none
  autoSleep : Option AutoSleepCfg := none
  wakeMode : Bool := false
  wakeHandler : Option WakeHandler := none

/-- Call lifecycle state (`call.ts`). -/
inductive CallSt : Type where
  | ringing : CallSt
  | connected : CallSt
  | ended : CallSt
deriving DecidableEq, Repr

/-- `call.ts` `CallState`; `caller`/`callee` hold the session ids of the two
shared `ConnectionContext` objects.  The wall-clock `startedAt`/`endedAt`
bookkeeping fields are not referenced by any router logic and are omitted. -/
structure Call : Type where
  callId : String
  caller : String
  callee : String
  state : CallSt
  metadata : Option JVal := none
  endReason : Option String := none

/-- `router.ts` `PendingWakeCall`; the armed `setTimeout` handle is recorded as
the delay it was created with (`timerMs`), firing is `Event.wakeTimeout`. -/
structure PendingWakeCall : Type where
  callId : String
  caller : String
  calleeAddress : String
  metadata : Option JVal
  wakeProfile : WakeProfile
  timerMs : ℚ

/-- Per-session dial counter entry (`router.ts` `dialCounters`). -/
structure DialCounter : Type where
  count : Int
  windowStart : Int

/-- Router options after constructor defaulting (`callRingingTimeoutMs` 30000,
`dialRateLimit.maxAttempts` 100, `dialRateLimit.windowMs` 60000).  The
floating-point `haversineDistanceKm` computation is supplied abstractly; no
claim in this development depends on its values. -/
structure RouterOpts : Type where
  heartbeatTimeoutMs : Int := 30000
  callTimeoutMs : Int := 30000
  dialMaxAttempts : Int := 100
  dialWindowMs : Int := 60000
  haversine : ℚ → ℚ → ℚ → ℚ → ℚ := fun _ _ _ _ => 0

/-- One element of a `PRESENCE_RESULT` reply. -/
structure PresenceEntry : Type where
  address : String
  status : PStatus
  metadata : JVal

/-- Outbound frames the router can emit (`types.ts` / router send sites).
Fields that can be `undefined` at runtime (a connection's `address`) are
options. -/
inductive Frame : Type where
  | registered (address : String) (session_id : String) : Frame
  | registerFailed (reason : String) : Frame
  | heartbeatAck (timestamp : Int) : Frame
  | ring (fromAddr : Option String) (call_id : String) (metadata : Option JVal) : Frame
  | connected (call_id : String) (toAddr : Option String) : Frame
  | busy (toAddr : Option String) (reason : String) : Frame
  | hangup (call_id : String) (reason : String) : Frame
  | msgFrame (call_id : String) (fromAddr : Option String) (data : JVal)
      (content_type : String) : Frame
  | presenceResult (addresses : List PresenceEntry) : Frame
  | errorFrame (reason : String) (context : String) (detail : String) : Frame

/-- Observable router effects, in emission order. -/
inductive Out : Type where
  | send (sid : String) (frame : Frame) : Out
  | wakeInvoke (profile : WakeProfile) : Out
  | closeConn (sid : String) (code : Int) (reason : String) : Out

/-- The `near` sub-query of `PRESENCE`. -/
structure PresenceNear : Type where
  lat : ℚ
  lon : ℚ
  radius_km : ℚ

/-- A `PRESENCE` query (`types.ts` `PresenceQuery`). -/
structure PresenceQuery : Type where
  domain : Option String := none
  capabilities : Option (List String) := none
  near : Option PresenceNear := none

/-- The `auto_sleep` payload of a `STATUS` frame. -/
structure AutoSleepPayload : Type where
  idle_timeout_seconds : ℚ
  wake_on_ring : Bool

/-- Inbound frames (`types.ts` `RouterInboundMessage`).  Fields are typed at
the shape the router's `typeof` checks accept; checks on field *values*
(empty strings, unknown enum strings, negative numbers) are kept in the
handlers. -/
inductive Msg : Type where
  | register (address : String) (metadata : Option JVal) (mode : Option String)
      (wake_handler : Option WakeHandler) : Msg
  | status (status : String) (auto_sleep : Option AutoSleepPayload) : Msg
  | unregister : Msg
  | heartbeat : Msg
  | dial (toAddr : String) (metadata : Option JVal) : Msg
  | answer (call_id : String) : Msg
  | hangup (call_id : String) (reason : Option String) : Msg
  | message (call_id : String) (data : JVal) (content_type : Option String) : Msg
  | presence (query : Option PresenceQuery) : Msg
  | sleepAck : Msg

/-- The complete mutable state of a `SystemXRouter` together with its
`ConnectionRegistry` and `CallManager`. -/
structure RouterState : Type where
  conns : List (String × Conn) := []
  sessions : List String := []
  byAddress : List (String × String) := []
  calls : List (String × Call) := []
  callTimers : List String := []
  dialCounters : List (String × DialCounter) := []
  wakeProfiles : List (String × WakeProfile) := []
  pendingByAddress : List (String × List PendingWakeCall) := []
  pendingById : List (String × PendingWakeCall) := []
  uuidCounter : Nat := 0

/-- A freshly created router. -/
def RouterState.init : RouterState := {}

/-- Deterministic stand-in for `randomUUID` call-id generation. -/
def freshCallId (n : Nat) : String := "call-" ++ toString n

/-- Heap access to a connection object by session id. -/
def getConn (s : RouterState) (sid : String) : Option Conn := aget s.conns sid

/-- `ConnectionRegistry.getBySession`: only sessions still in the registry. -/
def getBySession (s : RouterState) (sid : String) : Option Conn :=
  if sid ∈ s.sessions then aget s.conns sid else none

/-- Mutate the fields of the connection object bound to a session id. -/
def updConn (s : RouterState) (sid : String) (f : Conn → Conn) : RouterState :=
  { s with conns := amod s.conns sid f }

/-- `utils.ts` `isValidAddress`: non-empty, at most 255 characters, and
matching the regex `[^\s@]+@[^\s@]+\.[^\s@]+` anchored at both ends: exactly
one at-sign, no whitespace, and a dot in the domain part with at least one
character on each side.  (`Char.isWhitespace` stands in for the JS `\s`
class; they agree on all ASCII input.) -/
def isValidAddress (s : String) : Bool :=
  let cs := s.data
  decide (0 < cs.length) && decide (cs.length ≤ 255) &&
  decide (cs.count '@' = 1) &&
  (let a := cs.takeWhile (fun c => c != '@')
   let b := (cs.dropWhile (fun c => c != '@')).tail
   decide (a ≠ []) && decide (b ≠ []) &&
   (a ++ b).all (fun c => !c.isWhitespace) &&
   ((b.drop 1).dropLast).contains '.')

/-- The successful path of `ConnectionRegistry.registerAddress`: drop the
connection's previous address binding when it is still current (the source
checks `connection.address` truthiness, inequality with the new address, and
`current === connection`), then write the `address`/`metadata` fields and
insert the new binding. -/
def registerAddressProceed (s : RouterState) (sid address : String)
    (metadata : Option JVal) (conn : Conn) : RouterState × Bool :=
  let s1 :=
    match conn.address with
    | some old =>
      if old ≠ "" ∧ old ≠ address ∧ aget s.byAddress old = some sid then
        { s with byAddress := adel s.byAddress old }
      else s
    | none => s
  let s2 := updConn s1 sid fun c =>
    { c with address := some address, metadata := metadata }
  ({ s2 with byAddress := aset s2.byAddress address sid }, true)

/-- `ConnectionRegistry.registerAddress` together with the object-field writes
it performs.  Returns the updated state and whether registration succeeded
(the only failure reason is `address_in_use`). -/
def registerAddress (s : RouterState) (sid : String) (address : String)
    (metadata : Option JVal) : RouterState × Bool :=
  match aget s.conns sid with
  | none => (s, false)
  | some conn =>
    match aget s.byAddress address with
    | some esid =>
      if esid = sid then registerAddressProceed s sid address metadata conn
      else (s, false)
    | none => registerAddressProceed s sid address metadata conn

/-- `ConnectionRegistry.disconnect`: drop the address binding when it still
points at this connection object, then drop the session binding.  The
connection object itself (and its fields) stays on the heap, as in JS. -/
def registryDisconnect (s : RouterState) (sid : String) : RouterState :=
  let s1 :=
    match aget s.conns sid with
    | some conn =>
      match conn.address with
      | some a =>
        if a ≠ "" ∧ aget s.byAddress a = some sid then
          { s with byAddress := adel s.byAddress a }
        else s
      | none => s
    | none => s
  { s1 with sessions := s1.sessions.erase sid }

/-- `CallManager.createCall`; generates a call id when none is supplied. -/
def createCall (s : RouterState) (callerSid calleeSid : String)
    (metadata : Option JVal) (callId : Option String) : RouterState × Call :=
  let cid := callId.getD (freshCallId s.uuidCounter)
  let call : Call :=
    { callId := cid, caller := callerSid, callee := calleeSid,
      state := .ringing, metadata := metadata }
  ({ s with
      calls := aset s.calls cid call,
      uuidCounter := if callId.isSome then s.uuidCounter else s.uuidCounter + 1 },
   call)

/-- `CallManager.setConnected`. -/
def setConnected (s : RouterState) (cid : String) : RouterState :=
  { s with calls := amod s.calls cid fun c => { c with state := .connected } }

/-- `CallManager.endCall`. -/
def endCall (s : RouterState) (cid : String) (reason : String) : RouterState :=
  { s with calls := amod s.calls cid fun c =>
      { c with state := .ended, endReason := some reason } }

/-- `CallManager.release`. -/
def releaseCall (s : RouterState) (cid : String) : RouterState :=
  { s with calls := adel s.calls cid }

/-- `SystemXRouter.clearCallTimer`. -/
def clearCallTimer (s : RouterState) (cid : String) : RouterState :=
  { s with callTimers := s.callTimers.erase cid }

/-- `SystemXRouter.scheduleCallTimeout` (clears any previous timer, then
arms a fresh one). -/
def scheduleCallTimeout (s : RouterState) (cid : String) : RouterState :=
  let s := clearCallTimer s cid
  { s with callTimers := s.callTimers ++ [cid] }

/-- `SystemXRouter.isDialRateLimited`: returns the decision, the updated
counter state and any `rate_limited` error frame sent. -/
def isDialRateLimited (opts : RouterOpts) (s : RouterState) (sid : String)
    (now : Int) : Bool × RouterState × List Out :=
  if opts.dialMaxAttempts ≤ 0 then (false, s, [])
  else
    match aget s.dialCounters sid with
    | none =>
      (false, { s with dialCounters := aset s.dialCounters sid ⟨1, now⟩ }, [])
    | some entry =>
      if now - entry.windowStart > opts.dialWindowMs then
        (false, { s with dialCounters := aset s.dialCounters sid ⟨1, now⟩ }, [])
      else
        let c := entry.count + 1
        let s' := { s with dialCounters := aset s.dialCounters sid ⟨c, entry.windowStart⟩ }
        if c > opts.dialMaxAttempts then
          (true, s',
           [.send sid (.errorFrame "rate_limited" "DIAL" "Too many dial attempts")])
        else (false, s', [])

/-- `SystemXRouter.storeWakeProfile`. -/
def storeWakeProfile (s : RouterState) (sid : String) : RouterState :=
  match aget s.conns sid with
  | none => s
  | some conn =>
    match conn.address, conn.wakeHandler with
    | some a, some h =>
      if a ≠ "" then { s with wakeProfiles := aset s.wakeProfiles a ⟨a, h⟩ }
      else s
    | _, _ => s

/-- `SystemXRouter.validateWakeHandler`; the error string is the
`invalid_payload` detail the router sends on rejection. -/
def validateWakeHandler (handler : Option WakeHandler) : Except String WakeHandler :=
  match handler with
  | none => .error "wake_handler is required for wake_on_ring mode"
  | some h =>
    if h.timeoutSeconds ≤ 0 then
      .error "wake_handler.timeout_seconds must be positive"
    else
      match h with
      | .webhook url _ _ =>
        if url = "" then .error "wake_handler.url must be a non-empty string"
        else .ok h
      | .spawn command _ =>
        if command = [] then .error "wake_handler.command must be a non-empty array"
        else if command.all (fun part => part != "") then .ok h
        else .error "wake_handler.command entries must be non-empty strings"

/-- Remove the first pending wake call with the given id from a queue
(`findIndex` + `splice(index, 1)` in the source). -/
def removeFirstPending : List PendingWakeCall → String → List PendingWakeCall
  | [], _ => []
  | p :: rest, cid =>
    if p.callId = cid then rest else p :: removeFirstPending rest cid

/-- `SystemXRouter.failPendingWakeCall`. -/
def failPendingWakeCall (s : RouterState) (cid reason : String) :
    RouterState × List Out :=
  match aget s.pendingById cid with
  | none => (s, [])
  | some pending =>
    let s := { s with pendingById := adel s.pendingById cid }
    let s :=
      match aget s.pendingByAddress pending.calleeAddress with
      | some queue =>
        let queue := removeFirstPending queue cid
        if queue.isEmpty then
          { s with pendingByAddress := adel s.pendingByAddress pending.calleeAddress }
        else
          { s with pendingByAddress := aset s.pendingByAddress pending.calleeAddress queue }
      | none => s
    let s := updConn s pending.caller fun c =>
      if c.activeCallId = some cid then
        { c with activeCallId := none, status := .available }
      else c
    (s, [.send pending.caller (.busy (some pending.calleeAddress) reason)])

/-- `SystemXRouter.startCall`. -/
def startCall (s : RouterState) (callerSid calleeSid : String)
    (metadata : Option JVal) (callId : Option String) : RouterState × List Out :=
  let (s, call) := createCall s callerSid calleeSid metadata callId
  let s := updConn s callerSid fun c =>
    { c with activeCallId := some call.callId, status := .busy }
  let s := updConn s calleeSid fun c =>
    { c with activeCallId := some call.callId, status := .busy }
  let s := scheduleCallTimeout s call.callId
  let fromAddr := (aget s.conns callerSid).bind Conn.address
  (s, [.send calleeSid (.ring fromAddr call.callId metadata)])

/-- Loop body of `SystemXRouter.resumePendingWakeCalls`.  The source recurses
after failing a pending call whose caller has disconnected; each pass removes
one element from the callee's queue, so a fuel of (queue length + 1) makes the
recursion structural without changing behaviour.  Note that the source deletes
the pending call from `pendingWakeCallsById` *before* invoking
`failPendingWakeCall`, which therefore finds nothing and returns without
notifying the abandoned caller. -/
def resumePendingLoop : Nat → RouterState → String → RouterState × List Out
  | 0, s, _ => (s, [])
  | fuel + 1, s, calleeSid =>
    match aget s.conns calleeSid with
    | none => (s, [])
    | some callee =>
      match callee.address with
      | none => (s, [])
      | some addr =>
        if addr = "" then (s, [])
        else
          match aget s.pendingByAddress addr with
          | none => (s, [])
          | some [] => (s, [])
          | some (pending :: rest) =>
            let s :=
              if rest.isEmpty then
                { s with pendingByAddress := adel s.pendingByAddress addr }
              else
                { s with pendingByAddress := aset s.pendingByAddress addr rest }
            let s := { s with pendingById := adel s.pendingById pending.callId }
            if (getBySession s pending.caller).isSome then
              startCall s pending.caller calleeSid pending.metadata (some pending.callId)
            else
              let (s, out1) := failPendingWakeCall s pending.callId "caller_unavailable"
              let (s, out2) := resumePendingLoop fuel s calleeSid
              (s, out1 ++ out2)

/-- `SystemXRouter.resumePendingWakeCalls`. -/
def resumePendingWakeCalls (s : RouterState) (calleeSid : String) :
    RouterState × List Out :=
  let fuel :=
    match (aget s.conns calleeSid).bind Conn.address with
    | some addr => ((aget s.pendingByAddress addr).getD []).length
    | none => 0
  resumePendingLoop (fuel + 1) s calleeSid

/-- `SystemXRouter.clearCallState`. -/
def clearCallState (s : RouterState) (call : Call) : RouterState × List Out :=
  let s := clearCallTimer s call.callId
  let s := updConn s call.caller fun c =>
    if c.activeCallId = some call.callId then
      { c with activeCallId := none, status := .available }
    else c
  let s := updConn s call.callee fun c =>
    if c.activeCallId = some call.callId then
      { c with activeCallId := none, status := .available }
    else c
  let (s, outs) :=
    if addrTruthy ((aget s.conns call.callee).bind Conn.address) then
      resumePendingWakeCalls s call.callee
    else (s, [])
  (releaseCall s call.callId, outs)

/-- `SystemXRouter.handleCallTimeout` (the ring timer firing). -/
def handleCallTimeout (s : RouterState) (cid : String) : RouterState × List Out :=
  match aget s.calls cid with
  | none => (s, [])
  | some call =>
    if call.state ≠ .ringing then (s, [])
    else
      let calleeAddr := (aget s.conns call.callee).bind Conn.address
      let out1 : List Out :=
        [.send call.caller (.busy calleeAddr "timeout"),
         .send call.callee (.hangup call.callId "timeout")]
      let s := clearCallTimer s cid
      let s := endCall s cid "timeout"
      let (s, out2) :=
        clearCallState s { call with state := .ended, endReason := some "timeout" }
      (s, out1 ++ out2)

/-- `SystemXRouter.handleAnswer`. -/
def handleAnswer (s : RouterState) (sid : String) (cid : String) :
    RouterState × List Out :=
  if cid = "" then
    (s, [.send sid (.errorFrame "invalid_payload" "ANSWER" "Field 'call_id' is required")])
  else
    match aget s.calls cid with
    | none => (s, [])
    | some call =>
      if call.callee ≠ sid then (s, [])
      else
        let s := setConnected s call.callId
        let s := clearCallTimer s call.callId
        let toAddr := (aget s.conns call.callee).bind Conn.address
        (s, [.send call.caller (.connected call.callId toAddr)])

/-- `SystemXRouter.handleHangup`. -/
def handleHangup (s : RouterState) (sid : String) (cid : String)
    (reason? : Option String) : RouterState × List Out :=
  if cid = "" then
    (s, [.send sid (.errorFrame "invalid_payload" "HANGUP" "Field 'call_id' is required")])
  else
    match aget s.calls cid with
    | none => (s, [])
    | some call =>
      if call.state = .ended then (s, [])
      else if call.caller ≠ sid ∧ call.callee ≠ sid then (s, [])
      else
        let reason := reason?.getD "normal"
        let s := clearCallTimer s call.callId
        let s := endCall s call.callId reason
        let other := if sid = call.caller then call.callee else call.caller
        let out1 : List Out := [.send other (.hangup call.callId reason)]
        let (s, out2) :=
          clearCallState s { call with state := .ended, endReason := some reason }
        (s, out1 ++ out2)

/-- `SystemXRouter.handleMsg`. -/
def handleMsg (s : RouterState) (sid : String) (cid : String) (data : JVal)
    (content_type : Option String) : RouterState × List Out :=
  if cid = "" then
    (s, [.send sid (.errorFrame "invalid_payload" "MSG" "Field 'call_id' is required")])
  else if content_type ≠ none ∧ content_type ≠ some "text" ∧
      content_type ≠ some "json" ∧ content_type ≠ some "binary" then
    (s, [.send sid (.errorFrame "invalid_payload" "MSG" "Unsupported content_type")])
  else
    match aget s.calls cid with
    | none => (s, [])
    | some call =>
      if call.state ≠ .connected then (s, [])
      else if call.caller ≠ sid ∧ call.callee ≠ sid then (s, [])
      else
        let other := if sid = call.caller then call.callee else call.caller
        let fromAddr := (aget s.conns sid).bind Conn.address
        (s, [.send other (.msgFrame call.callId fromAddr data (content_type.getD "text"))])

/-- `SystemXRouter.tryWakeSleepingAgent`.  Returns whether a wake was started
(the caller then gets no immediate reply). -/
def tryWakeSleepingAgent (s : RouterState) (callerSid toAddr : String)
    (metadata : Option JVal) : Bool × RouterState × List Out :=
  match aget s.wakeProfiles toAddr with
  | none => (false, s, [])
  | some profile =>
    let cid := freshCallId s.uuidCounter
    let s := { s with uuidCounter := s.uuidCounter + 1 }
    let timeoutMs := max (profile.handler.timeoutSeconds * 1000) 100
    let pending : PendingWakeCall :=
      { callId := cid, caller := callerSid, calleeAddress := toAddr,
        metadata := metadata, wakeProfile := profile, timerMs := timeoutMs }
    let queue := (aget s.pendingByAddress toAddr).getD []
    let s := { s with pendingByAddress := aset s.pendingByAddress toAddr (queue ++ [pending]) }
    let s := { s with pendingById := aset s.pendingById cid pending }
    let s := updConn s callerSid fun c =>
      { c with activeCallId := some cid, status := .busy }
    (true, s, [.wakeInvoke profile])

/-- `SystemXRouter.handleDial`. -/
def handleDial (opts : RouterOpts) (s : RouterState) (sid : String) (now : Int)
    (toAddr : String) (metadata : Option JVal) : RouterState × List Out :=
  if toAddr = "" then
    (s, [.send sid (.errorFrame "invalid_payload" "DIAL" "Field 'to' is required")])
  else
    let (limited, s, rlOut) := isDialRateLimited opts s sid now
    if limited then (s, rlOut)
    else
      let cont : RouterState × List Out :=
        match aget s.conns sid with
        | none => (s, [])
        | some caller =>
          if ¬ addrTruthy caller.address then (s, [])
          else
            match aget s.byAddress toAddr with
            | none =>
              let (woke, s1, wOut) := tryWakeSleepingAgent s sid toAddr metadata
              if woke then (s1, wOut)
              else (s1, wOut ++ [.send sid (.busy (some toAddr) "no_such_address")])
            | some calleeSid =>
              if calleeSid = sid then
                (s, [.send sid (.busy (some toAddr) "already_in_call")])
              else
                match aget s.conns calleeSid with
                | none => (s, [])
                | some callee =>
                  if callee.activeCallId.isSome then
                    (s, [.send sid (.busy (some toAddr) "already_in_call")])
                  else if callee.status = .dnd then
                    (s, [.send sid (.busy (some toAddr) "dnd")])
                  else if callee.status = .away then
                    (s, [.send sid (.busy (some toAddr) "away")])
                  else if callee.status = .busy ∧ callee.activeCallId = none then
                    (s, [.send sid (.busy (some toAddr) "busy")])
                  else startCall s sid calleeSid metadata none
      (cont.1, rlOut ++ cont.2)

/-- Model of JS `String.prototype.split` with a single-character separator
(the router only splits on the at-sign).  Defined by structural recursion so
it evaluates in the kernel; agrees with the standard library's `splitOn`. -/
def splitOnCharList (sep : Char) : List Char → List (List Char)
  | [] => [[]]
  | c :: rest =>
    match splitOnCharList sep rest with
    | [] => if c = sep then [[], []] else [[c]]
    | hd :: tl => if c = sep then [] :: hd :: tl else (c :: hd) :: tl

/-- The JS `address.split(sep)` as a list of strings. -/
def splitOnChar (sep : Char) (s : String) : List String :=
  (splitOnCharList sep s.data).map fun l => ⟨l⟩

/-- Model of JS `String.prototype.toLowerCase` (per-character lowering; agrees
with it on ASCII, which is all the router compares).  Defined through
`List.map` so it evaluates in the kernel. -/
def jsToLowerCase (s : String) : String := ⟨s.data.map Char.toLower⟩

/-- `SystemXRouter.extractLocation`. -/
def extractLocation (metadata : Option JVal) : Option (ℚ × ℚ) :=
  match metadata with
  | none => none
  | some m =>
    match m.getField "location" with
    | none => none
    | some loc =>
      if ¬ loc.truthy then none
      else
        match loc.getField "lat", loc.getField "lon" with
        | some (.num lat), some (.num lon) => some (lat, lon)
        | _, _ => none

/-- The raw `metadata.capabilities` array of a connection (empty when absent
or not an array), as read by `matchesPresenceQuery`. -/
def rawCapabilities (metadata : Option JVal) : List JVal :=
  match metadata with
  | some m =>
    match m.getField "capabilities" with
    | some (.arr xs) => xs
    | _ => []
  | none => []

/-- The string entries of `metadata.capabilities` (the source filters the raw
array down to strings before the `includes` checks). -/
def stringCapabilities (metadata : Option JVal) : List String :=
  (rawCapabilities metadata).filterMap fun v =>
    match v with
    | .str s => some s
    | _ => none

/-- `SystemXRouter.matchesPresenceQuery`.  `if (query.domain)` in the source is
a JS truthiness test, so an empty-string domain disables the domain filter;
`if (query.capabilities)` is true for every array, including the empty one. -/
def matchesPresenceQuery (opts : RouterOpts) (conn : Conn)
    (query : PresenceQuery) : Bool :=
  if ¬ addrTruthy conn.address then false
  else
    let domainOk :=
      match query.domain with
      | some d =>
        if d = "" then true
        else
          match (splitOnChar '@' (conn.address.getD ""))[1]? with
          | none => false
          | some dp => if dp = "" then false else jsToLowerCase dp == jsToLowerCase d
      | none => true
    let capsOk :=
      match query.capabilities with
      | some req =>
        req.all fun r => (stringCapabilities conn.metadata).contains r
      | none => true
    let nearOk :=
      match query.near with
      | some nq =>
        match extractLocation conn.metadata with
        | none => false
        | some (lat, lon) =>
          decide (opts.haversine nq.lat nq.lon lat lon ≤ nq.radius_km)
      | none => true
    domainOk && capsOk && nearOk

/-- The `PRESENCE_RESULT` list: all live registered connections other than the
requester that match the query, in registry insertion order. -/
def presenceResults (opts : RouterOpts) (s : RouterState) (sid : String)
    (query : PresenceQuery) : List PresenceEntry :=
  s.sessions.filterMap fun osid =>
    match aget s.conns osid with
    | none => none
    | some other =>
      if ¬ addrTruthy other.address then none
      else if osid = sid then none
      else if ¬ matchesPresenceQuery opts other query then none
      else
        some { address := other.address.getD "", status := other.status,
               metadata := other.metadata.getD (.obj []) }

/-- `SystemXRouter.handlePresence`.  With typed queries the only remaining
shape check is the non-negativity of `radius_km`. -/
def handlePresence (opts : RouterOpts) (s : RouterState) (sid : String)
    (query? : Option PresenceQuery) : RouterState × List Out :=
  match aget s.conns sid with
  | none => (s, [])
  | some conn =>
    if ¬ addrTruthy conn.address then
      (s, [.send sid (.errorFrame "not_registered" "PRESENCE"
            "Registration is required before requesting presence")])
    else
      let query := query?.getD {}
      let reply : RouterState × List Out :=
        (s, [.send sid (.presenceResult (presenceResults opts s sid query))])
      match query.near with
      | some nq =>
        if nq.radius_km < 0 then
          (s, [.send sid (.errorFrame "invalid_payload" "PRESENCE" "Invalid near filter")])
        else reply
      | none => reply

/-- The tail of `SystemXRouter.handleRegister` after wake-mode validation:
stored-profile reinstatement, registry binding, wake-field update, the
`REGISTERED` ack and draining of pending wake calls, in source order. -/
def handleRegisterBind (s : RouterState) (sid address : String)
    (metadata : Option JVal) (wakeMode₀ : Bool)
    (wakeHandler₀ : Option WakeHandler) : RouterState × List Out :=
  let reinstate : Bool × Option WakeHandler × RouterState :=
    match wakeHandler₀, aget s.wakeProfiles address with
    | none, some stored =>
      (true, some stored.handler,
       { s with wakeProfiles := adel s.wakeProfiles address })
    | wh, _ => (wakeMode₀, wh, s)
  let (wakeMode₁, wakeHandler₁, s) := reinstate
  let (s, ok) := registerAddress s sid address metadata
  if ¬ ok then (s, [.send sid (.registerFailed "address_in_use")])
  else
    let s := updConn s sid fun c =>
      match wakeHandler₁ with
      | some h =>
        if wakeMode₁ then { c with wakeMode := true, wakeHandler := some h }
        else { c with wakeMode := false, wakeHandler := none }
      | none => { c with wakeMode := false, wakeHandler := none }
    let out1 : List Out := [.send sid (.registered address sid)]
    let (s, out2) :=
      if addrTruthy ((aget s.conns sid).bind Conn.address) then
        resumePendingWakeCalls s sid
      else (s, [])
    (s, out1 ++ out2)

/-- `SystemXRouter.handleRegister`.  Address syntax, wake-mode validation,
then `handleRegisterBind`. -/
def handleRegister (s : RouterState) (sid : String) (address : String)
    (metadata : Option JVal) (mode : Option String)
    (wake_handler : Option WakeHandler) : RouterState × List Out :=
  if ¬ isValidAddress address then
    (s, [.send sid (.registerFailed "invalid_address")])
  else
    match aget s.conns sid with
    | none => (s, [])
    | some conn =>
      let step : Except (List Out) (Bool × Option WakeHandler) :=
        match mode with
        | some m =>
          if m ≠ "wake_on_ring" then
            .error [.send sid (.errorFrame "invalid_payload" "REGISTER" "Unsupported mode")]
          else
            match validateWakeHandler wake_handler with
            | .error detail =>
              .error [.send sid (.errorFrame "invalid_payload" "REGISTER" detail)]
            | .ok h => .ok (true, some h)
        | none =>
          if wake_handler.isSome then
            .error [.send sid (.errorFrame "invalid_payload" "REGISTER"
                      "wake_handler requires mode 'wake_on_ring'")]
          else .ok (false, conn.wakeHandler)
      match step with
      | .error outs => (s, outs)
      | .ok (wakeMode₀, wakeHandler₀) =>
        handleRegisterBind s sid address metadata wakeMode₀ wakeHandler₀

/-- `SystemXRouter.handleStatus`.  Note the source sets the status *before*
validating the `auto_sleep` payload. -/
def handleStatus (s : RouterState) (sid : String) (status : String)
    (auto_sleep : Option AutoSleepPayload) : RouterState × List Out :=
  match parseStatus status with
  | none => (s, [.send sid (.errorFrame "invalid_payload" "STATUS" "Invalid status value")])
  | some st =>
    let s := updConn s sid fun c => { c with status := st }
    match auto_sleep with
    | none => (s, [])
    | some payload =>
      if payload.idle_timeout_seconds < 0 then
        (s, [.send sid (.errorFrame "invalid_payload" "STATUS" "Invalid auto_sleep payload")])
      else
        (updConn s sid fun c =>
          { c with autoSleep := some ⟨payload.idle_timeout_seconds, payload.wake_on_ring⟩ },
         [])

/-- `SystemXRouter.handleHeartbeat`. -/
def handleHeartbeat (s : RouterState) (sid : String) (now : Int) :
    RouterState × List Out :=
  let s := updConn s sid fun c => { c with lastHeartbeat := now }
  (s, [.send sid (.heartbeatAck now)])

/-- One step of `SystemXRouter.cancelPendingWakeCallsForCaller`. -/
def cancelFold (reason : String) (acc : RouterState × List Out) (cid : String) :
    RouterState × List Out :=
  let (s', outs) := failPendingWakeCall acc.1 cid reason
  (s', acc.2 ++ outs)

/-- `SystemXRouter.cancelPendingWakeCallsForCaller`. -/
def cancelPendingWakeCallsForCaller (s : RouterState) (sid reason : String) :
    RouterState × List Out :=
  let ids := (s.pendingById.filter fun p => p.2.caller == sid).map Prod.fst
  ids.foldl (cancelFold reason) (s, [])

/-- The tail of `SystemXRouter.disconnect` after the wake-profile persistence
step: registry removal, dial-counter cleanup, teardown of the active call, and
cancellation of the connection's pending wake calls. -/
def disconnectCore (s : RouterState) (sid reason : String) (conn : Conn) :
    RouterState × List Out :=
  let s := registryDisconnect s sid
  let s := { s with dialCounters := adel s.dialCounters sid }
  let (s, out1) :=
    match conn.activeCallId with
    | some cid =>
      match aget s.calls cid with
      | some call =>
        let other := if call.caller = sid then call.callee else call.caller
        let o : List Out := [.send other (.hangup call.callId reason)]
        let s := clearCallTimer s call.callId
        let s := endCall s call.callId reason
        let (s, o2) :=
          clearCallState s { call with state := .ended, endReason := some reason }
        (s, o ++ o2)
      | none => (s, [])
    | none => (s, [])
  let (s, out2) := cancelPendingWakeCallsForCaller s sid reason
  (s, out1 ++ out2 ++ [.closeConn sid 4000 reason])

/-- `SystemXRouter.disconnect`. -/
def disconnect (s : RouterState) (sid : String) (reason : String) :
    RouterState × List Out :=
  match aget s.conns sid with
  | none => (s, [])
  | some conn =>
    let s :=
      if reason = "timeout" ∧ conn.wakeMode ∧ conn.wakeHandler.isSome ∧
          addrTruthy conn.address then
        storeWakeProfile s sid
      else s
    disconnectCore s sid reason conn

/-- `SystemXRouter.handleUnregister`. -/
def handleUnregister (s : RouterState) (sid : String) : RouterState × List Out :=
  let s :=
    match aget s.conns sid with
    | some conn =>
      if conn.wakeMode ∧ conn.wakeHandler.isSome ∧ addrTruthy conn.address then
        storeWakeProfile s sid
      else s
    | none => s
  disconnect s sid "client_requested"

/-- `SystemXRouter.handleSleepAck`. -/
def handleSleepAck (s : RouterState) (sid : String) : RouterState × List Out :=
  match aget s.conns sid with
  | none => (s, [])
  | some conn =>
    if ¬ addrTruthy conn.address then
      (s, [.send sid (.errorFrame "invalid_payload" "SLEEP_ACK"
            "Registration required before sleeping")])
    else if ¬ (conn.wakeMode ∧ conn.wakeHandler.isSome) then
      (s, [.send sid (.errorFrame "invalid_payload" "SLEEP_ACK"
            "Wake-on-ring mode must be configured before sleeping")])
    else
      let s := storeWakeProfile s sid
      disconnect s sid "sleep"

/-- `SystemXRouter.handleMessage`: frame dispatch. -/
def handleMessage (opts : RouterOpts) (s : RouterState) (sid : String)
    (now : Int) (m : Msg) : RouterState × List Out :=
  match m with
  | .register a md mo wh => handleRegister s sid a md mo wh
  | .status st payload => handleStatus s sid st payload
  | .unregister => handleUnregister s sid
  | .heartbeat => handleHeartbeat s sid now
  | .dial toAddr md => handleDial opts s sid now toAddr md
  | .answer cid => handleAnswer s sid cid
  | .hangup cid reason? => handleHangup s sid cid reason?
  | .message cid data ct => handleMsg s sid cid data ct
  | .presence q => handlePresence opts s sid q
  | .sleepAck => handleSleepAck s sid

/-- `SystemXRouter.createConnection` / `ConnectionRegistry.createConnection`.
`randomUUID` never repeats an id, so creation with an id already on the heap
is excluded by a guard. -/
def createConnection (s : RouterState) (sid : String) (now : Int) : RouterState :=
  if (aget s.conns sid).isSome then s
  else
    { s with
        conns := aset s.conns sid { sessionId := sid, lastHeartbeat := now },
        sessions := s.sessions ++ [sid] }

/-- One step of `SystemXRouter.pruneStaleConnections`. -/
def pruneStep (opts : RouterOpts) (now : Int) (acc : RouterState × List Out)
    (sid : String) : RouterState × List Out :=
  match getBySession acc.1 sid with
  | some conn =>
    if now - conn.lastHeartbeat > opts.heartbeatTimeoutMs then
      let (s', outs) := disconnect acc.1 sid "timeout"
      (s', acc.2 ++ outs)
    else acc
  | none => acc

/-- `SystemXRouter.pruneStaleConnections` (the heartbeat sweeper). -/
def pruneStaleConnections (opts : RouterOpts) (s : RouterState) (now : Int) :
    RouterState × List Out :=
  s.sessions.foldl (pruneStep opts now) (s, [])

/-- External stimuli of a router instance: transport opens and closes, inbound
frames from live sessions, and the timer callbacks.  Frames are only delivered
for sessions the registry still knows (a closed transport delivers nothing). -/
inductive Event : Type where
  | openConn (sid : String) (now : Int) : Event
  | frame (sid : String) (now : Int) (msg : Msg) : Event
  | ringTimeout (callId : String) : Event
  | wakeTimeout (callId : String) : Event
  | wakeFailed (callId : String) : Event
  | closed (sid : String) (reason : String) : Event
  | sweep (now : Int) : Event

/-- Apply one event to the router state. -/
def applyEvent (opts : RouterOpts) (s : RouterState) : Event → RouterState × List Out
  | .openConn sid now => (createConnection s sid now, [])
  | .frame sid now m =>
    match getBySession s sid with
    | some _ => handleMessage opts s sid now m
    | none => (s, [])
  | .ringTimeout cid => handleCallTimeout s cid
  | .wakeTimeout cid => failPendingWakeCall s cid "timeout"
  | .wakeFailed cid => failPendingWakeCall s cid "wake_failed"
  | .closed sid reason =>
    match getBySession s sid with
    | some _ => disconnect s sid reason
    | none => (s, [])
  | .sweep now => pruneStaleConnections opts s now

/-- Run a sequence of events, accumulating emitted effects. -/
def runEvents (opts : RouterOpts) (s : RouterState) : List Event → RouterState × List Out
  | [] => (s, [])
  | e :: rest =>
    let (s', outs) := applyEvent opts s e
    let (s'', rest') := runEvents opts s' rest
    (s'', outs ++ rest')

/-- The address field of the connection object at a session id
(the part of the heap the registry invariant talks about). -/
def connAddr (s : RouterState) (sid : String) : Option (Option String) :=
  (aget s.conns sid).map Conn.address

/-- The registry consistency invariant: live session lists and the address map
have unique keys, every live session has a connection object, every address
binding points at a live connection whose `address` field is that address, and
every live connection with a bound address is indexed under it.  Together these
give the spec's uniqueness properties. -/
def RegistryInv (s : RouterState) : Prop :=
  s.sessions.Nodup ∧
  (s.byAddress.map Prod.fst).Nodup ∧
  (∀ sid, sid ∈ s.sessions → (connAddr s sid).isSome) ∧
  (∀ a sid, aget s.byAddress a = some sid →
    sid ∈ s.sessions ∧ connAddr s sid = some (some a)) ∧
  (∀ sid a, sid ∈ s.sessions → connAddr s sid = some (some a) →
    aget s.byAddress a = some sid) ∧
  (∀ a sid, aget s.byAddress a = some sid → a ≠ "")

/-- Two states with identical registry views (live sessions, address map, and
address fields of all heap objects). -/
def regEq (s s' : RouterState) : Prop :=
  s'.sessions = s.sessions ∧ s'.byAddress = s.byAddress ∧
  ∀ sid, connAddr s' sid = connAddr s sid

/-- Stated from the spec (for C9): the part of the candidate's address after
the at-sign equals the supplied query domain case-insensitively (vacuous when
no domain is supplied). -/
def specDomainMatches (conn : Conn) (query : PresenceQuery) : Prop :=
  ∀ d, query.domain = some d →
    ∃ dp, (splitOnChar '@' (conn.address.getD ""))[1]? = some dp ∧
      jsToLowerCase dp = jsToLowerCase d

/-- Stated from the spec (for C9): the candidate's `metadata.capabilities`
array contains every required capability string (vacuous when no capability
filter is supplied). -/
def specCapsMatch (conn : Conn) (query : PresenceQuery) : Prop :=
  ∀ req, query.capabilities = some req →
    ∀ r ∈ req, JVal.str r ∈ rawCapabilities conn.metadata

/-- Modelled from the spec: the broadcast-session routing of §4.4 is exercised
by the repository's tests (`concurrency: "broadcast"`, `max_listeners`) and
demo agents, but its implementation is not among the provided sources — the
`router.ts` in `src/` predates broadcast support.  A `BroadcastSession` tracks
one broadcaster, one shared call id, and the admitted listeners in join
order. -/
structure BroadcastSession : Type where
  callId : String
  broadcaster : String
  listeners : List String
  maxListeners : Option Nat

/-- Modelled from the spec: outcome of a listener's DIAL into a broadcast
session — `CONNECTED{call_id}` on admission, `BUSY{reason}` on rejection. -/
inductive JoinResult : Type where
  | connectedJ (callId : String) : JoinResult
  | busyJ (reason : String) : JoinResult
deriving DecidableEq, Repr

/-- Modelled from the spec, §4.4 Join: duplicate joins by the same session are
idempotent and re-emit `CONNECTED`; otherwise, if `maxListeners` is set and the
session is full, reject with `BUSY{max_listeners_reached}`; otherwise insert
the caller and emit `CONNECTED` with the session's shared call id. -/
def broadcastJoin (bs : BroadcastSession) (caller : String) :
    BroadcastSession × JoinResult :=
  if bs.listeners.contains caller then (bs, .connectedJ bs.callId)
  else
    match bs.maxListeners with
    | some n =>
      if bs.listeners.length ≥ n then (bs, .busyJ "max_listeners_reached")
      else ({ bs with listeners := bs.listeners ++ [caller] }, .connectedJ bs.callId)
    | none => ({ bs with listeners := bs.listeners ++ [caller] }, .connectedJ bs.callId)

/-- Join a sequence of callers in order, collecting each caller's reply. -/
def broadcastJoinAll (bs : BroadcastSession) :
    List String → BroadcastSession × List JoinResult
  | [] => (bs, [])
  | caller :: rest =>
    let (bs', r) := broadcastJoin bs caller
    let (bs'', rs) := broadcastJoinAll bs' rest
    (bs'', r :: rs)

/-- Router options exactly as defaulted by the `SystemXRouter` constructor. -/
def defaultOpts : RouterOpts := {}

/-- Scenario prefix shared by several claims: two fresh connections register
the distinct valid addresses `a@x.test` and `b@x.test`. -/
def twoPartySetup : List Event :=
  [ .openConn "s1" 0, .openConn "s2" 0,
    .frame "s1" 0 (.register "a@x.test" none none none),
    .frame "s2" 0 (.register "b@x.test" none none none) ]

/-- Router state after the two-party setup. -/
def twoPartyState : RouterState :=
  (runEvents defaultOpts RouterState.init twoPartySetup).1

/-- C1 scenario, step 1: `a` dials `b` with metadata `m`. -/
def c1AfterDial (m : Option JVal) : RouterState × List Out :=
  applyEvent defaultOpts twoPartyState (.frame "s1" 0 (.dial "b@x.test" m))

/-- C1 scenario, step 2: `b` answers. -/
def c1AfterAnswer (m : Option JVal) : RouterState × List Out :=
  applyEvent defaultOpts (c1AfterDial m).1 (.frame "s2" 0 (.answer "call-0"))

/-- C1 scenario, step 3: `a` sends a text message with payload `d`. -/
def c1AfterMsg (m : Option JVal) (d : JVal) : RouterState × List Out :=
  applyEvent defaultOpts (c1AfterAnswer m).1
    (.frame "s1" 0 (.message "call-0" d (some "text")))

/-- C1 scenario, step 4: `a` hangs up without a reason. -/
def c1AfterHangup (m : Option JVal) (d : JVal) : RouterState × List Out :=
  applyEvent defaultOpts (c1AfterMsg m d).1 (.frame "s1" 0 (.hangup "call-0" none))

/-- C4 scenario: `a` dials `b` (call-0), then also dials `c` (call-1, which
overwrites the caller's `activeCallId`), and call-0's ring timer fires. -/
def c4Events : List Event :=
  [ .openConn "s1" 0, .openConn "s2" 0, .openConn "s3" 0,
    .frame "s1" 0 (.register "a@x.test" none none none),
    .frame "s2" 0 (.register "b@x.test" none none none),
    .frame "s3" 0 (.register "c@x.test" none none none),
    .frame "s1" 0 (.dial "b@x.test" none),
    .frame "s1" 0 (.dial "c@x.test" none),
    .ringTimeout "call-0" ]

/-- Final state and trace of the C4 scenario. -/
def c4Run : RouterState × List Out :=
  runEvents defaultOpts RouterState.init c4Events

/-- A concrete webhook wake handler used by the wake scenarios. -/
def demoWakeHandler : WakeHandler := .webhook "https://wake.example/hook" 1 none

/-- C5/C6 scenario prefix: an agent registers with wake-on-ring, sleeps (which
stores its WakeProfile and disconnects it), and a caller registers. -/
def wakeSetupEvents : List Event :=
  [ .openConn "s1" 0,
    .frame "s1" 0
      (.register "agent@sleep.test" none (some "wake_on_ring") (some demoWakeHandler)),
    .frame "s1" 0 .sleepAck,
    .openConn "s2" 0,
    .frame "s2" 0 (.register "caller@x.test" none none none) ]

/-- State after the wake scenario prefix. -/
def wakeSetupState : RouterState :=
  (runEvents defaultOpts RouterState.init wakeSetupEvents).1

/-- C6 scenario: after the sleeping agent stored its profile, a second
connection re-registers the same address supplying its own wake handler. -/
def c6Run : RouterState × List Out :=
  runEvents defaultOpts RouterState.init
    [ .openConn "s1" 0,
      .frame "s1" 0
        (.register "agent@sleep.test" none (some "wake_on_ring") (some demoWakeHandler)),
      .frame "s1" 0 .sleepAck,
      .openConn "s2" 0,
      .frame "s2" 0
        (.register "agent@sleep.test" none (some "wake_on_ring") (some demoWakeHandler)) ]

/-- C7 scenario: while its call is still ringing, the caller sets its status
to `available` via a STATUS frame. -/
def c7Run : RouterState × List Out :=
  applyEvent defaultOpts (c1AfterDial none).1 (.frame "s1" 0 (.status "available" none))

/-- C9 scenario state: a requester `r@d.test` and one other registered
connection `u@e.test`. -/
def c9State : RouterState :=
  (runEvents defaultOpts RouterState.init
    [ .openConn "s1" 0, .openConn "s2" 0,
      .frame "s1" 0 (.register "r@d.test" none none none),
      .frame "s2" 0 (.register "u@e.test" none none none) ]).1

/- ===== Helper lemmas ===== -/

theorem aget_aset {α : Type} (m : List (String × α)) (k k' : String) (v : α) :
    aget (aset m k v) k' = if k = k' then some v else aget m k' := by
  induction m with
  | nil => simp [aset, aget]
  | cons hd tl ih =>
    obtain ⟨k₀, v₀⟩ := hd
    by_cases h₀ : k₀ = k
    · subst h₀
      by_cases h : k₀ = k' <;> simp [aset, aget, h]
    · by_cases h : k₀ = k'
      · have hne : k ≠ k' := fun hk => h₀ (h.trans hk.symm)
        simp [aset, aget, h₀, h, hne, hne.symm]
      · simp [aset, aget, h₀, h, ih]

theorem aget_amod {α : Type} (m : List (String × α)) (k k' : String) (f : α → α) :
    aget (amod m k f) k' =
      if k = k' then (aget m k).map f else aget m k' := by
  induction m with
  | nil => simp [amod, aget]
  | cons hd tl ih =>
    obtain ⟨k₀, v₀⟩ := hd
    by_cases h₀ : k₀ = k
    · subst h₀
      by_cases h : k₀ = k' <;> simp [amod, aget, h]
    · by_cases h : k₀ = k'
      · have hne : k ≠ k' := fun hk => h₀ (h.trans hk.symm)
        simp [amod, aget, h₀, h, hne, hne.symm]
      · simp [amod, aget, h₀, h, ih]

theorem aget_adel_ne {α : Type} (m : List (String × α)) (k k' : String)
    (h : k ≠ k') : aget (adel m k) k' = aget m k' := by
  induction m with
  | nil => simp [adel]
  | cons hd tl ih =>
    obtain ⟨k₀, v₀⟩ := hd
    by_cases h₀ : k₀ = k
    · subst h₀
      simp [adel, aget, h]
    · by_cases h' : k₀ = k' <;> simp [adel, aget, h₀, h', h.symm, ih]

theorem aget_eq_none_iff {α : Type} (m : List (String × α)) (k : String) :
    aget m k = none ↔ k ∉ m.map Prod.fst := by
  induction m with
  | nil => simp [aget]
  | cons hd tl ih =>
    obtain ⟨k₀, v₀⟩ := hd
    by_cases h₀ : k₀ = k
    · subst h₀; simp [aget]
    · simp [aget, h₀, ih, Ne.symm h₀]

theorem aget_adel_self {α : Type} (m : List (String × α)) (k : String)
    (h : (m.map Prod.fst).Nodup) : aget (adel m k) k = none := by
  induction m with
  | nil => simp [adel, aget]
  | cons hd tl ih =>
    obtain ⟨k₀, v₀⟩ := hd
    simp only [List.map_cons, List.nodup_cons] at h
    by_cases h₀ : k₀ = k
    · subst h₀
      simp [adel, aget_eq_none_iff, h.1]
    · simp [adel, aget, h₀, ih h.2]

theorem keys_aset {α : Type} (m : List (String × α)) (k : String) (v : α) :
    (aset m k v).map Prod.fst =
      if k ∈ m.map Prod.fst then m.map Prod.fst else m.map Prod.fst ++ [k] := by
  induction m with
  | nil => simp [aset]
  | cons hd tl ih =>
    obtain ⟨k₀, v₀⟩ := hd
    by_cases h₀ : k₀ = k
    · subst h₀; simp [aset]
    · by_cases hm : k ∈ tl.map Prod.fst <;>
        simp [aset, h₀, ih, hm, Ne.symm h₀]

theorem nodup_keys_aset {α : Type} (m : List (String × α)) (k : String) (v : α)
    (h : (m.map Prod.fst).Nodup) : ((aset m k v).map Prod.fst).Nodup := by
  rw [keys_aset]
  by_cases hm : k ∈ m.map Prod.fst
  · simpa [hm] using h
  · simp [hm, List.nodup_append, h]

theorem adel_sublist {α : Type} (m : List (String × α)) (k : String) :
    (adel m k).Sublist m := by
  induction m with
  | nil => simp [adel]
  | cons hd tl ih =>
    obtain ⟨k₀, v₀⟩ := hd
    by_cases h₀ : k₀ = k
    · subst h₀
      simp only [adel, if_pos rfl]
      exact List.sublist_cons_self _ tl
    · simpa [adel, h₀] using ih.cons₂ (k₀, v₀)

theorem nodup_keys_adel {α : Type} (m : List (String × α)) (k : String)
    (h : (m.map Prod.fst).Nodup) : ((adel m k).map Prod.fst).Nodup :=
  h.sublist ((adel_sublist m k).map Prod.fst)

/- ===== Registry-view preservation infrastructure (C2) ===== -/

theorem regEq_refl (s : RouterState) : regEq s s := ⟨rfl, rfl, fun _ => rfl⟩

theorem regEq_trans {s t u : RouterState} (h1 : regEq s t) (h2 : regEq t u) :
    regEq s u :=
  ⟨h2.1.trans h1.1, h2.2.1.trans h1.2.1, fun sid => (h2.2.2 sid).trans (h1.2.2 sid)⟩

theorem connAddr_of_conns_eq {s s' : RouterState} (h : s'.conns = s.conns)
    (sid : String) : connAddr s' sid = connAddr s sid := by
  unfold connAddr
  rw [h]

theorem regEq_of_fields {s s' : RouterState} (h1 : s'.conns = s.conns)
    (h2 : s'.sessions = s.sessions) (h3 : s'.byAddress = s.byAddress) :
    regEq s s' :=
  ⟨h2, h3, connAddr_of_conns_eq h1⟩

theorem connAddr_updConn (s : RouterState) (sid : String) (f : Conn → Conn)
    (hf : ∀ c, (f c).address = c.address) (sid' : String) :
    connAddr (updConn s sid f) sid' = connAddr s sid' := by
  unfold connAddr updConn
  simp only [aget_amod]
  by_cases h : sid = sid'
  · subst h
    cases aget s.conns sid with
    | none => simp
    | some c => simp [hf]
  · simp [h]

theorem regEq_updConn (s : RouterState) (sid : String) (f : Conn → Conn)
    (hf : ∀ c, (f c).address = c.address) : regEq s (updConn s sid f) :=
  ⟨rfl, rfl, connAddr_updConn s sid f hf⟩

theorem RegistryInv.of_regEq {s s' : RouterState} (h : regEq s s')
    (inv : RegistryInv s) : RegistryInv s' := by
  obtain ⟨hse, hba, hca⟩ := h
  obtain ⟨i1, i2, i3, i4, i5, i6⟩ := inv
  refine ⟨hse ▸ i1, hba ▸ i2, ?_, ?_, ?_, ?_⟩
  · intro sid hmem
    rw [hca]
    exact i3 sid (hse ▸ hmem)
  · intro a sid hget
    rw [hse, hca]
    exact i4 a sid (hba ▸ hget)
  · intro sid a hmem hc
    rw [hba]
    exact i5 sid a (hse ▸ hmem) ((hca sid) ▸ hc)
  · intro a sid hget
    exact i6 a sid (hba ▸ hget)

theorem regEq_clearCallTimer (s : RouterState) (cid : String) :
    regEq s (clearCallTimer s cid) := regEq_of_fields rfl rfl rfl

theorem regEq_scheduleCallTimeout (s : RouterState) (cid : String) :
    regEq s (scheduleCallTimeout s cid) := regEq_of_fields rfl rfl rfl

theorem regEq_setConnected (s : RouterState) (cid : String) :
    regEq s (setConnected s cid) := regEq_of_fields rfl rfl rfl

theorem regEq_endCall (s : RouterState) (cid r : String) :
    regEq s (endCall s cid r) := regEq_of_fields rfl rfl rfl

theorem regEq_releaseCall (s : RouterState) (cid : String) :
    regEq s (releaseCall s cid) := regEq_of_fields rfl rfl rfl

theorem regEq_isDialRateLimited (opts : RouterOpts) (s : RouterState)
    (sid : String) (now : Int) :
    regEq s (isDialRateLimited opts s sid now).2.1 := by
  unfold isDialRateLimited
  split
  · exact regEq_refl s
  · cases aget s.dialCounters sid with
    | none => exact regEq_of_fields rfl rfl rfl
    | some entry =>
      dsimp only
      split
      · exact regEq_of_fields rfl rfl rfl
      · split <;> exact regEq_of_fields rfl rfl rfl

theorem regEq_storeWakeProfile (s : RouterState) (sid : String) :
    regEq s (storeWakeProfile s sid) := by
  unfold storeWakeProfile
  cases aget s.conns sid with
  | none => exact regEq_refl s
  | some conn =>
    dsimp only
    split
    · split
      · exact regEq_of_fields rfl rfl rfl
      · exact regEq_refl s
    · exact regEq_refl s

theorem regEq_failPendingWakeCall (s : RouterState) (cid reason : String) :
    regEq s (failPendingWakeCall s cid reason).1 := by
  unfold failPendingWakeCall
  cases aget s.pendingById cid with
  | none => exact regEq_refl s
  | some pending =>
    dsimp only
    have hf : ∀ c : Conn,
        ((fun c : Conn => if c.activeCallId = some cid then
            { c with activeCallId := none, status := PStatus.available }
          else c) c).address = c.address := by
      intro c
      by_cases h : c.activeCallId = some cid <;> simp [h]
    cases aget s.pendingByAddress pending.calleeAddress with
    | none =>
      refine regEq_trans (regEq_of_fields ?_ ?_ ?_) (regEq_updConn _ _ _ hf) <;> rfl
    | some queue =>
      dsimp only
      split <;>
        (refine regEq_trans (regEq_of_fields ?_ ?_ ?_) (regEq_updConn _ _ _ hf) <;> rfl)

theorem regEq_startCall (s : RouterState) (callerSid calleeSid : String)
    (metadata : Option JVal) (callId : Option String) :
    regEq s (startCall s callerSid calleeSid metadata callId).1 := by
  unfold startCall createCall
  dsimp only
  refine regEq_trans (regEq_of_fields ?_ ?_ ?_)
    (regEq_trans (regEq_updConn _ _ _ ?_)
      (regEq_trans (regEq_updConn _ _ _ ?_)
        (regEq_scheduleCallTimeout _ _))) <;>
    first
    | rfl
    | exact fun c => rfl

theorem regEq_resumePendingLoop (fuel : Nat) (s : RouterState) (calleeSid : String) :
    regEq s (resumePendingLoop fuel s calleeSid).1 := by
  induction fuel generalizing s with
  | zero => exact regEq_refl s
  | succ n ih =>
    unfold resumePendingLoop
    cases aget s.conns calleeSid with
    | none => exact regEq_refl s
    | some callee =>
      dsimp only
      cases callee.address with
      | none => exact regEq_refl s
      | some addr =>
        dsimp only
        split
        · exact regEq_refl s
        · cases hq : aget s.pendingByAddress addr with
          | none => exact regEq_refl s
          | some queue =>
            cases queue with
            | nil => exact regEq_refl s
            | cons pending rest =>
              dsimp only
              split <;> split
              all_goals
                first
                | refine regEq_trans (regEq_of_fields ?_ ?_ ?_)
                    (regEq_startCall _ _ _ _ _) <;> rfl
                | refine regEq_trans (regEq_of_fields ?_ ?_ ?_)
                    (regEq_trans (regEq_failPendingWakeCall _ _ _) (ih _)) <;> rfl

theorem regEq_resumePendingWakeCalls (s : RouterState) (calleeSid : String) :
    regEq s (resumePendingWakeCalls s calleeSid).1 :=
  regEq_resumePendingLoop _ s calleeSid

theorem regEq_clearCallState (s : RouterState) (call : Call) :
    regEq s (clearCallState s call).1 := by
  unfold clearCallState
  dsimp only
  have hf : ∀ c : Conn,
      ((fun c : Conn => if c.activeCallId = some call.callId then
          { c with activeCallId := none, status := PStatus.available }
        else c) c).address = c.address := by
    intro c
    by_cases h : c.activeCallId = some call.callId <;> simp [h]
  have base : regEq s (updConn (updConn (clearCallTimer s call.callId) call.caller
      (fun c : Conn => if c.activeCallId = some call.callId then
        { c with activeCallId := none, status := PStatus.available } else c)) call.callee
      (fun c : Conn => if c.activeCallId = some call.callId then
        { c with activeCallId := none, status := PStatus.available } else c)) :=
    regEq_trans (regEq_trans (regEq_clearCallTimer s call.callId)
      (regEq_updConn _ call.caller _ hf)) (regEq_updConn _ call.callee _ hf)
  split
  · exact regEq_trans base
      (regEq_trans (regEq_resumePendingWakeCalls _ _) (regEq_releaseCall _ _))
  · exact regEq_trans base (regEq_releaseCall _ _)

theorem regEq_handleCallTimeout (s : RouterState) (cid : String) :
    regEq s (handleCallTimeout s cid).1 := by
  unfold handleCallTimeout
  cases aget s.calls cid with
  | none => exact regEq_refl s
  | some call =>
    dsimp only
    split
    · exact regEq_refl s
    · exact regEq_trans (regEq_trans (regEq_clearCallTimer _ _) (regEq_endCall _ _ _))
        (regEq_clearCallState _ _)

theorem regEq_handleAnswer (s : RouterState) (sid cid : String) :
    regEq s (handleAnswer s sid cid).1 := by
  unfold handleAnswer
  split
  · exact regEq_refl s
  · cases aget s.calls cid with
    | none => exact regEq_refl s
    | some call =>
      dsimp only
      split
      · exact regEq_refl s
      · exact regEq_trans (regEq_setConnected _ _) (regEq_clearCallTimer _ _)

theorem regEq_handleHangup (s : RouterState) (sid cid : String)
    (reason? : Option String) : regEq s (handleHangup s sid cid reason?).1 := by
  unfold handleHangup
  split
  · exact regEq_refl s
  · cases aget s.calls cid with
    | none => exact regEq_refl s
    | some call =>
      dsimp only
      split
      · exact regEq_refl s
      · split
        · exact regEq_refl s
        · exact regEq_trans
            (regEq_trans (regEq_clearCallTimer _ _) (regEq_endCall _ _ _))
            (regEq_clearCallState _ _)

theorem regEq_handleMsg (s : RouterState) (sid cid : String) (data : JVal)
    (ct : Option String) : regEq s (handleMsg s sid cid data ct).1 := by
  unfold handleMsg
  split
  · exact regEq_refl s
  · split
    · exact regEq_refl s
    · cases aget s.calls cid with
      | none => exact regEq_refl s
      | some call =>
        dsimp only
        split
        · exact regEq_refl s
        · split <;> exact regEq_refl s

theorem regEq_tryWakeSleepingAgent (s : RouterState) (callerSid toAddr : String)
    (metadata : Option JVal) :
    regEq s (tryWakeSleepingAgent s callerSid toAddr metadata).2.1 := by
  unfold tryWakeSleepingAgent
  cases aget s.wakeProfiles toAddr with
  | none => exact regEq_refl s
  | some profile =>
    dsimp only
    refine regEq_trans (regEq_of_fields ?_ ?_ ?_) (regEq_updConn _ _ _ ?_) <;>
      first
      | rfl
      | exact fun c => rfl

theorem regEq_handleDial (opts : RouterOpts) (s : RouterState) (sid : String)
    (now : Int) (toAddr : String) (metadata : Option JVal) :
    regEq s (handleDial opts s sid now toAddr metadata).1 := by
  unfold handleDial
  split
  · exact regEq_refl s
  · dsimp only
    refine regEq_trans (regEq_isDialRateLimited opts s sid now) ?_
    split
    · exact regEq_refl _
    · cases aget (isDialRateLimited opts s sid now).2.1.conns sid with
      | none => exact regEq_refl _
      | some caller =>
        dsimp only
        split
        · exact regEq_refl _
        · cases aget (isDialRateLimited opts s sid now).2.1.byAddress toAddr with
          | none =>
            dsimp only
            split
            · exact regEq_tryWakeSleepingAgent _ _ _ _
            · exact regEq_tryWakeSleepingAgent _ _ _ _
          | some calleeSid =>
            dsimp only
            split
            · exact regEq_refl _
            · cases aget (isDialRateLimited opts s sid now).2.1.conns calleeSid with
              | none => exact regEq_refl _
              | some callee =>
                dsimp only
                split
                · exact regEq_refl _
                · split
                  · exact regEq_refl _
                  · split
                    · exact regEq_refl _
                    · split
                      · exact regEq_refl _
                      · exact regEq_startCall _ _ _ _ _

theorem regEq_handlePresence (opts : RouterOpts) (s : RouterState) (sid : String)
    (query? : Option PresenceQuery) :
    regEq s (handlePresence opts s sid query?).1 := by
  unfold handlePresence
  cases aget s.conns sid with
  | none => exact regEq_refl s
  | some conn =>
    dsimp only
    split
    · exact regEq_refl s
    · cases (query?.getD {}).near with
      | none => exact regEq_refl s
      | some nq =>
        dsimp only
        split <;> exact regEq_refl s

theorem regEq_handleStatus (s : RouterState) (sid status : String)
    (auto_sleep : Option AutoSleepPayload) :
    regEq s (handleStatus s sid status auto_sleep).1 := by
  unfold handleStatus
  cases parseStatus status with
  | none => exact regEq_refl s
  | some st =>
    dsimp only
    cases auto_sleep with
    | none => exact regEq_updConn _ _ _ fun _ => rfl
    | some payload =>
      dsimp only
      split
      · exact regEq_updConn _ _ _ fun _ => rfl
      · refine regEq_trans (regEq_updConn _ sid _ ?_) (regEq_updConn _ sid _ ?_) <;>
          exact fun _ => rfl

theorem regEq_handleHeartbeat (s : RouterState) (sid : String) (now : Int) :
    regEq s (handleHeartbeat s sid now).1 :=
  regEq_updConn _ _ _ fun _ => rfl

theorem regEq_cancelFold_foldl (reason : String) (ids : List String) :
    ∀ acc : RouterState × List Out,
      regEq acc.1 (ids.foldl (cancelFold reason) acc).1 := by
  induction ids with
  | nil => intro acc; exact regEq_refl _
  | cons cid rest ih =>
    intro acc
    dsimp only [List.foldl, cancelFold]
    exact regEq_trans (regEq_failPendingWakeCall acc.1 cid reason) (ih _)

theorem regEq_cancelPendingWakeCallsForCaller (s : RouterState)
    (sid reason : String) :
    regEq s (cancelPendingWakeCallsForCaller s sid reason).1 := by
  unfold cancelPendingWakeCallsForCaller
  exact regEq_cancelFold_foldl reason _ (s, [])

/- ===== Registry invariant preservation (C2) ===== -/

theorem isValidAddress_ne_empty {a : String} (h : isValidAddress a = true) :
    a ≠ "" := by
  intro he
  subst he
  simp [isValidAddress] at h

theorem RegistryInv.init : RegistryInv RouterState.init := by
  refine ⟨List.nodup_nil, List.nodup_nil, ?_, ?_, ?_, ?_⟩ <;>
    intro a b <;> simp [RouterState.init, aget, connAddr] at *

theorem some_some_inj {α : Type} {x y : α}
    (h : some (some x) = some (some y)) : x = y := by
  injection h with h'
  injection h' with h''

theorem some_none_ne_some_some {α : Type} {a : α}
    (h : (some (none : Option α)) = some (some a)) : False := by
  injection h with h'
  exact Option.noConfusion h'

/-- Core step of the `handleRegister` invariant proof: the state produced by
the successful path of `registerAddress`, for any intermediate address map
`BA1` related to the original one as in the two source branches. -/
theorem registerAddress_core_inv (s : RouterState) (sid address : String)
    (md : Option JVal) (conn : Conn) (BA1 : List (String × String))
    (inv : RegistryInv s) (hsid : sid ∈ s.sessions) (haddr : address ≠ "")
    (hc : aget s.conns sid = some conn)
    (hnodup : (BA1.map Prod.fst).Nodup)
    (hsound : ∀ a t, aget BA1 a = some t → aget s.byAddress a = some t)
    (hcomplete : ∀ a t, aget s.byAddress a = some t → t ≠ sid → a ≠ address →
      aget BA1 a = some t)
    (hnosid : ∀ a, a ≠ address → aget BA1 a ≠ some sid)
    (houter : aget s.byAddress address = none ∨ aget s.byAddress address = some sid) :
    RegistryInv { s with
        conns := amod s.conns sid
          (fun c => { c with address := some address, metadata := md }),
        byAddress := aset BA1 address sid } := by
  obtain ⟨i1, i2, i3, i4, i5, i6⟩ := inv
  have hconnAddr : ∀ sid', connAddr { s with
      conns := amod s.conns sid
        (fun c => { c with address := some address, metadata := md }),
      byAddress := aset BA1 address sid } sid' =
      if sid = sid' then some (some address) else connAddr s sid' := by
    intro sid'
    by_cases h : sid = sid'
    · subst h
      simp [connAddr, aget_amod, hc]
    · simp [connAddr, aget_amod, h]
  refine ⟨i1, nodup_keys_aset _ _ _ hnodup, ?_, ?_, ?_, ?_⟩
  · intro sid' hmem
    rw [hconnAddr]
    by_cases h : sid = sid'
    · simp [h]
    · simp only [if_neg h]
      exact i3 sid' hmem
  · intro a t hget
    rw [aget_aset] at hget
    by_cases ha : address = a
    · subst ha
      rw [if_pos rfl] at hget
      injection hget with h
      subst h
      refine ⟨hsid, ?_⟩
      rw [hconnAddr]
      simp
    · rw [if_neg ha] at hget
      have hBA := hsound a t hget
      have ht := i4 a t hBA
      have htsid : t ≠ sid := by
        intro h
        exact hnosid a (fun h' => ha h'.symm) (h ▸ hget)
      refine ⟨ht.1, ?_⟩
      rw [hconnAddr, if_neg (fun h => htsid h.symm)]
      exact ht.2
  · intro sid' b hmem hca
    rw [hconnAddr] at hca
    by_cases h : sid = sid'
    · rw [if_pos h, Option.some.injEq, Option.some.injEq] at hca
      subst hca
      rw [aget_aset, if_pos rfl, h]
    · rw [if_neg h] at hca
      have hBA := i5 sid' b hmem hca
      have hb : b ≠ address := by
        intro he
        subst he
        rcases houter with h' | h'
        · rw [h'] at hBA; exact Option.noConfusion hBA
        · rw [h'] at hBA
          injection hBA with h''
          exact h h''
      rw [aget_aset, if_neg (fun h' => hb h'.symm)]
      exact hcomplete b sid' hBA (fun h' => h h'.symm) hb
  · intro a t hget
    rw [aget_aset] at hget
    by_cases ha : address = a
    · exact ha ▸ haddr
    · rw [if_neg ha] at hget
      exact i6 a t (hsound a t hget)

theorem registerAddressProceed_inv (s : RouterState) (sid address : String)
    (md : Option JVal) (conn : Conn) (inv : RegistryInv s)
    (hsid : sid ∈ s.sessions) (haddr : address ≠ "")
    (hc : aget s.conns sid = some conn)
    (houter : aget s.byAddress address = none ∨ aget s.byAddress address = some sid) :
    RegistryInv (registerAddressProceed s sid address md conn).1 := by
  obtain ⟨i1, i2, i3, i4, i5, i6⟩ := inv
  have hcsid : connAddr s sid = some conn.address := by
    simp [connAddr, hc]
  unfold registerAddressProceed
  dsimp only
  cases hca : conn.address with
  | none =>
    dsimp only
    refine registerAddress_core_inv s sid address md conn s.byAddress
      ⟨i1, i2, i3, i4, i5, i6⟩ hsid haddr hc i2 (fun _ _ h => h)
      (fun a t h _ _ => h) ?_ houter
    intro a _ hget
    have h2 := (i4 a sid hget).2
    rw [hcsid, hca] at h2
    exact some_none_ne_some_some h2
  | some old =>
    dsimp only
    split
    · next hcond =>
      refine registerAddress_core_inv s sid address md conn
        (adel s.byAddress old) ⟨i1, i2, i3, i4, i5, i6⟩ hsid haddr hc
        (nodup_keys_adel _ _ i2) ?_ ?_ ?_ houter
      · intro a t hget
        by_cases ha : old = a
        · subst ha
          rw [aget_adel_self _ _ i2] at hget
          exact Option.noConfusion hget
        · rw [aget_adel_ne _ _ _ ha] at hget
          exact hget
      · intro a t hBA htne _
        have ha : old ≠ a := by
          intro he
          subst he
          rw [hcond.2.2] at hBA
          injection hBA with h''
          exact htne h''.symm
        rw [aget_adel_ne _ _ _ ha]
        exact hBA
      · intro a hane hget
        by_cases ha : old = a
        · subst ha
          rw [aget_adel_self _ _ i2] at hget
          exact Option.noConfusion hget
        · rw [aget_adel_ne _ _ _ ha] at hget
          have h2 := (i4 a sid hget).2
          rw [hcsid, hca] at h2
          exact ha (some_some_inj h2)
    · next hcond =>
      refine registerAddress_core_inv s sid address md conn s.byAddress
        ⟨i1, i2, i3, i4, i5, i6⟩ hsid haddr hc i2 (fun _ _ h => h)
        (fun a t h _ _ => h) ?_ houter
      intro a hane hget
      have hconnA := (i4 a sid hget).2
      rw [hcsid, hca] at hconnA
      have hoa : old = a := some_some_inj hconnA
      subst hoa
      exact hcond ⟨i6 old sid hget, fun h => hane h, hget⟩

theorem registerAddress_inv (s : RouterState) (sid address : String)
    (md : Option JVal) (inv : RegistryInv s) (hsid : sid ∈ s.sessions)
    (haddr : address ≠ "") :
    RegistryInv (registerAddress s sid address md).1 := by
  unfold registerAddress
  cases hc : aget s.conns sid with
  | none => exact inv
  | some conn =>
    dsimp only
    cases hba : aget s.byAddress address with
    | none =>
      exact registerAddressProceed_inv s sid address md conn inv hsid haddr hc
        (Or.inl hba)
    | some esid =>
      dsimp only
      split
      · next hesid =>
        exact registerAddressProceed_inv s sid address md conn inv hsid haddr hc
          (Or.inr (hesid ▸ hba))
      · exact inv

theorem registryDisconnect_inv (s : RouterState) (sid : String)
    (inv : RegistryInv s) : RegistryInv (registryDisconnect s sid) := by
  obtain ⟨i1, i2, i3, i4, i5, i6⟩ := inv
  unfold registryDisconnect
  have base : ∀ (BA1 : List (String × String)),
      (BA1.map Prod.fst).Nodup →
      (∀ a t, aget BA1 a = some t → aget s.byAddress a = some t) →
      (∀ a t, aget s.byAddress a = some t → t ≠ sid → aget BA1 a = some t) →
      (∀ a, aget BA1 a ≠ some sid) →
      RegistryInv { s with byAddress := BA1, sessions := s.sessions.erase sid } := by
    intro BA1 hnodup hsound hcomplete hnosid
    refine ⟨i1.erase sid, hnodup, ?_, ?_, ?_, ?_⟩
    · intro sid' hmem
      exact i3 sid' (List.mem_of_mem_erase hmem)
    · intro a t hget
      have hBA := hsound a t hget
      have ht := i4 a t hBA
      have htsid : t ≠ sid := fun h => hnosid a (h ▸ hget)
      exact ⟨(List.mem_erase_of_ne htsid).mpr ht.1, ht.2⟩
    · intro sid' b hmem hca
      have hne : sid' ≠ sid := by
        intro h
        subst h
        exact (i1.mem_erase_iff.mp hmem).1 rfl
      exact hcomplete b sid' (i5 sid' b (List.mem_of_mem_erase hmem) hca) hne
    · intro a t hget
      exact i6 a t (hsound a t hget)
  cases hc : aget s.conns sid with
  | none =>
    dsimp only
    refine base s.byAddress i2 (fun _ _ h => h) (fun _ _ h _ => h) ?_
    intro a hget
    have h2 := (i4 a sid hget).1
    have h3 := i3 sid h2
    simp [connAddr, hc] at h3
  | some conn =>
    dsimp only
    cases hca : conn.address with
    | none =>
      dsimp only
      refine base s.byAddress i2 (fun _ _ h => h) (fun _ _ h _ => h) ?_
      intro a hget
      have h2 := (i4 a sid hget).2
      simp [connAddr, hc, hca] at h2
    | some addr =>
      dsimp only
      split
      · next hcond =>
        refine base (adel s.byAddress addr) (nodup_keys_adel _ _ i2) ?_ ?_ ?_
        · intro a t hget
          by_cases ha : addr = a
          · subst ha
            rw [aget_adel_self _ _ i2] at hget
            exact Option.noConfusion hget
          · rw [aget_adel_ne _ _ _ ha] at hget
            exact hget
        · intro a t hBA htne
          have ha : addr ≠ a := by
            intro he
            subst he
            rw [hcond.2] at hBA
            injection hBA with h''
            exact htne h''.symm
          rw [aget_adel_ne _ _ _ ha]
          exact hBA
        · intro a hget
          by_cases ha : addr = a
          · subst ha
            rw [aget_adel_self _ _ i2] at hget
            exact Option.noConfusion hget
          · rw [aget_adel_ne _ _ _ ha] at hget
            have h2 := (i4 a sid hget).2
            simp [connAddr, hc, hca] at h2
            exact ha h2
      · next hcond =>
        refine base s.byAddress i2 (fun _ _ h => h) (fun _ _ h _ => h) ?_
        intro a hget
        have h2 := (i4 a sid hget).2
        simp [connAddr, hc, hca] at h2
        rw [← h2] at hget
        exact hcond ⟨i6 addr sid hget, hget⟩

theorem createConnection_inv (s : RouterState) (sid : String) (now : Int)
    (inv : RegistryInv s) : RegistryInv (createConnection s sid now) := by
  obtain ⟨i1, i2, i3, i4, i5, i6⟩ := inv
  unfold createConnection
  split
  · exact ⟨i1, i2, i3, i4, i5, i6⟩
  · next hfresh =>
    have hnew : aget s.conns sid = none := by
      cases h : aget s.conns sid with
      | none => rfl
      | some c => rw [h] at hfresh; simp at hfresh
    have hnotmem : sid ∉ s.sessions := by
      intro hmem
      have := i3 sid hmem
      simp [connAddr, hnew] at this
    have hconnAddr : ∀ sid', connAddr { s with
        conns := aset s.conns sid { sessionId := sid, lastHeartbeat := now },
        sessions := s.sessions ++ [sid] } sid' =
        if sid = sid' then some none else connAddr s sid' := by
      intro sid'
      by_cases h : sid = sid'
      · subst h
        simp [connAddr, aget_aset]
      · simp [connAddr, aget_aset, h]
    refine ⟨?_, i2, ?_, ?_, ?_, i6⟩
    · simpa [List.nodup_append] using ⟨i1, hnotmem⟩
    · intro sid' hmem
      rw [hconnAddr]
      by_cases h : sid = sid'
      · simp [h]
      · rw [if_neg h]
        rcases List.mem_append.mp hmem with hm | hm
        · exact i3 sid' hm
        · simp at hm
          exact absurd hm.symm h
    · intro a t hget
      have ht := i4 a t hget
      have htne : sid ≠ t := by
        intro h
        subst h
        exact hnotmem ht.1
      rw [hconnAddr, if_neg htne]
      exact ⟨List.mem_append_left _ ht.1, ht.2⟩
    · intro sid' b hmem hca
      rw [hconnAddr] at hca
      by_cases h : sid = sid'
      · rw [if_pos h] at hca
        injection hca with h'
        exact Option.noConfusion h'
      · rw [if_neg h] at hca
        rcases List.mem_append.mp hmem with hm | hm
        · exact i5 sid' b hm hca
        · simp at hm
          exact absurd hm.symm h

theorem regEq_resumeIf (s : RouterState) (sid : String) (c : Bool) :
    regEq s (if c = true then resumePendingWakeCalls s sid else (s, [])).1 := by
  cases c
  · rw [if_neg (by simp)]
    exact regEq_refl s
  · rw [if_pos rfl]
    exact regEq_resumePendingWakeCalls s sid

theorem disconnectCore_inv (s : RouterState) (sid reason : String) (conn : Conn)
    (inv : RegistryInv s) : RegistryInv (disconnectCore s sid reason conn).1 := by
  unfold disconnectCore
  dsimp only
  have inv3 : RegistryInv { registryDisconnect s sid with
      dialCounters := adel (registryDisconnect s sid).dialCounters sid } :=
    (registryDisconnect_inv s sid inv).of_regEq (regEq_of_fields rfl rfl rfl)
  cases conn.activeCallId with
  | none =>
    exact inv3.of_regEq (regEq_cancelPendingWakeCallsForCaller _ sid reason)
  | some cid =>
    dsimp only
    cases aget { registryDisconnect s sid with
        dialCounters := adel (registryDisconnect s sid).dialCounters sid }.calls cid with
    | none =>
      exact inv3.of_regEq (regEq_cancelPendingWakeCallsForCaller _ sid reason)
    | some call =>
      dsimp only
      refine RegistryInv.of_regEq (regEq_cancelPendingWakeCallsForCaller _ sid reason)
        (RegistryInv.of_regEq (regEq_clearCallState _ _)
          (RegistryInv.of_regEq (regEq_endCall _ _ _)
            (RegistryInv.of_regEq (regEq_clearCallTimer _ _) inv3)))

theorem disconnect_inv (s : RouterState) (sid reason : String)
    (inv : RegistryInv s) : RegistryInv (disconnect s sid reason).1 := by
  unfold disconnect
  cases aget s.conns sid with
  | none => exact inv
  | some conn =>
    dsimp only
    split
    · exact disconnectCore_inv _ sid reason conn
        (inv.of_regEq (regEq_storeWakeProfile s sid))
    · exact disconnectCore_inv _ sid reason conn inv

theorem handleRegisterBind_inv (s : RouterState) (sid address : String)
    (md : Option JVal) (wakeMode₀ : Bool) (wakeHandler₀ : Option WakeHandler)
    (inv : RegistryInv s) (hsid : sid ∈ s.sessions) (haddr : address ≠ "") :
    RegistryInv (handleRegisterBind s sid address md wakeMode₀ wakeHandler₀).1 := by
  unfold handleRegisterBind
  dsimp only
  have main : ∀ (sE : RouterState) (wm : Bool) (wh : Option WakeHandler),
      RegistryInv sE → sid ∈ sE.sessions →
      RegistryInv ((let r := registerAddress sE sid address md
        if ¬ r.2 then (r.1, [Out.send sid (.registerFailed "address_in_use")])
        else
          let s := updConn r.1 sid fun c =>
            match wh with
            | some h =>
              if wm then { c with wakeMode := true, wakeHandler := some h }
              else { c with wakeMode := false, wakeHandler := none }
            | none => { c with wakeMode := false, wakeHandler := none }
          let out1 : List Out := [Out.send sid (.registered address sid)]
          let (s, out2) :=
            if addrTruthy ((aget s.conns sid).bind Conn.address) then
              resumePendingWakeCalls s sid
            else (s, [])
          (s, out1 ++ out2)) : RouterState × List Out).1 := by
    intro sE wm wh invE hsidE
    have invR := registerAddress_inv sE sid address md invE hsidE haddr
    dsimp only
    split
    · exact invR
    · have hf : ∀ c : Conn,
          ((fun c : Conn =>
            match wh with
            | some h =>
              if wm then { c with wakeMode := true, wakeHandler := some h }
              else { c with wakeMode := false, wakeHandler := none }
            | none => { c with wakeMode := false, wakeHandler := none }) c).address
            = c.address := by
        intro c
        cases wh with
        | none => rfl
        | some h => by_cases hw : wm <;> simp [hw]
      have invU := invR.of_regEq (regEq_updConn _ sid _ hf)
      exact invU.of_regEq (regEq_resumeIf _ sid _)
  cases wakeHandler₀ with
  | some h =>
    exact main s wakeMode₀ (some h) inv hsid
  | none =>
    cases aget s.wakeProfiles address with
    | none => exact main s wakeMode₀ none inv hsid
    | some stored =>
      exact main { s with wakeProfiles := adel s.wakeProfiles address } true
        (some stored.handler) (inv.of_regEq (regEq_of_fields rfl rfl rfl)) hsid

theorem handleRegister_inv (s : RouterState) (sid address : String)
    (md : Option JVal) (mode : Option String) (wh : Option WakeHandler)
    (inv : RegistryInv s) (hsid : sid ∈ s.sessions) :
    RegistryInv (handleRegister s sid address md mode wh).1 := by
  unfold handleRegister
  split
  · exact inv
  · next hvalid =>
    have haddr : address ≠ "" := by
      rw [not_not] at hvalid
      exact isValidAddress_ne_empty hvalid
    cases aget s.conns sid with
    | none => exact inv
    | some conn =>
      dsimp only
      cases mode with
      | some m =>
        dsimp only
        by_cases hm : m ≠ "wake_on_ring"
        · rw [if_pos hm]
          exact inv
        · rw [if_neg hm]
          cases hv : validateWakeHandler wh with
          | error d =>
            simp only [hv]
            exact inv
          | ok h =>
            simp only [hv]
            exact handleRegisterBind_inv s sid address md true (some h) inv hsid haddr
      | none =>
        dsimp only
        by_cases hws : wh.isSome = true
        · rw [if_pos hws]
          exact inv
        · rw [if_neg hws]
          exact handleRegisterBind_inv s sid address md false conn.wakeHandler
            inv hsid haddr

theorem handleUnregister_inv (s : RouterState) (sid : String)
    (inv : RegistryInv s) : RegistryInv (handleUnregister s sid).1 := by
  unfold handleUnregister
  cases aget s.conns sid with
  | none => exact disconnect_inv s sid _ inv
  | some conn =>
    dsimp only
    split
    · exact disconnect_inv _ sid _ (inv.of_regEq (regEq_storeWakeProfile s sid))
    · exact disconnect_inv s sid _ inv

theorem handleSleepAck_inv (s : RouterState) (sid : String)
    (inv : RegistryInv s) : RegistryInv (handleSleepAck s sid).1 := by
  unfold handleSleepAck
  cases aget s.conns sid with
  | none => exact inv
  | some conn =>
    dsimp only
    split
    · exact inv
    · split
      · exact inv
      · exact disconnect_inv _ sid _ (inv.of_regEq (regEq_storeWakeProfile s sid))

theorem pruneFold_inv (opts : RouterOpts) (now : Int) (ids : List String) :
    ∀ acc : RouterState × List Out, RegistryInv acc.1 →
      RegistryInv (ids.foldl (pruneStep opts now) acc).1 := by
  induction ids with
  | nil => intro acc h; exact h
  | cons sid rest ih =>
    intro acc h
    refine ih _ ?_
    unfold pruneStep
    cases getBySession acc.1 sid with
    | none => exact h
    | some conn =>
      dsimp only
      split
      · exact disconnect_inv _ sid _ h
      · exact h

theorem getBySession_mem {s : RouterState} {sid : String} {c : Conn}
    (h : getBySession s sid = some c) : sid ∈ s.sessions := by
  unfold getBySession at h
  by_cases hm : sid ∈ s.sessions
  · exact hm
  · rw [if_neg hm] at h
    exact Option.noConfusion h

theorem handleMessage_inv (opts : RouterOpts) (s : RouterState) (sid : String)
    (now : Int) (m : Msg) (inv : RegistryInv s) (hsid : sid ∈ s.sessions) :
    RegistryInv (handleMessage opts s sid now m).1 := by
  cases m with
  | register a md mo wh => exact handleRegister_inv s sid a md mo wh inv hsid
  | status st payload => exact inv.of_regEq (regEq_handleStatus s sid st payload)
  | unregister => exact handleUnregister_inv s sid inv
  | heartbeat => exact inv.of_regEq (regEq_handleHeartbeat s sid now)
  | dial toAddr md => exact inv.of_regEq (regEq_handleDial opts s sid now toAddr md)
  | answer cid => exact inv.of_regEq (regEq_handleAnswer s sid cid)
  | hangup cid r => exact inv.of_regEq (regEq_handleHangup s sid cid r)
  | message cid d ct => exact inv.of_regEq (regEq_handleMsg s sid cid d ct)
  | presence q => exact inv.of_regEq (regEq_handlePresence opts s sid q)
  | sleepAck => exact handleSleepAck_inv s sid inv

theorem applyEvent_inv (opts : RouterOpts) (s : RouterState) (e : Event)
    (inv : RegistryInv s) : RegistryInv (applyEvent opts s e).1 := by
  cases e with
  | openConn sid now => exact createConnection_inv s sid now inv
  | frame sid now m =>
    unfold applyEvent
    dsimp only
    cases h : getBySession s sid with
    | none => exact inv
    | some c => exact handleMessage_inv opts s sid now m inv (getBySession_mem h)
  | ringTimeout cid => exact inv.of_regEq (regEq_handleCallTimeout s cid)
  | wakeTimeout cid => exact inv.of_regEq (regEq_failPendingWakeCall s cid _)
  | wakeFailed cid => exact inv.of_regEq (regEq_failPendingWakeCall s cid _)
  | closed sid reason =>
    unfold applyEvent
    dsimp only
    cases h : getBySession s sid with
    | none => exact inv
    | some c => exact disconnect_inv s sid reason inv
  | sweep now => exact pruneFold_inv opts now s.sessions (s, []) inv

theorem keys_amod {α : Type} (m : List (String × α)) (k : String) (f : α → α) :
    (amod m k f).map Prod.fst = m.map Prod.fst := by
  induction m with
  | nil => simp [amod]
  | cons hd tl ih =>
    obtain ⟨k₀, v₀⟩ := hd
    by_cases h₀ : k₀ = k <;> simp [amod, h₀, ih]

theorem resumePendingWakeCalls_noqueue (t : RouterState) (sidc : String)
    (c : Conn) (b : String) (hc : aget t.conns sidc = some c)
    (hb : c.address = some b) (hbne : b ≠ "")
    (hq : aget t.pendingByAddress b = none) :
    resumePendingWakeCalls t sidc = (t, []) := by
  unfold resumePendingWakeCalls
  rw [hc]
  dsimp only [Option.bind]
  rw [hb]
  dsimp only
  rw [hq]
  dsimp only [Option.getD, List.length]
  unfold resumePendingLoop
  rw [hc]
  dsimp only
  rw [hb]
  dsimp only
  rw [if_neg hbne, hq]

/- ===== Claims ===== -/

/-- C1.  Point-to-point round trip: with two connections registered at
distinct addresses (instantiated with the valid representatives `a@x.test`
and `b@x.test`), for every metadata value `m` and payload `d`: the caller's
DIAL creates a call in state `ringing` and delivers
`RING{from, call_id, metadata:m}` to the callee; the callee's ANSWER moves the
call to `connected` and delivers `CONNECTED{call_id, to}` to the caller; the
caller's text MSG delivers `MSG{call_id, from, data:d, content_type:"text"}`
to the callee; and the caller's HANGUP ends (releases) the call and delivers
`HANGUP{call_id, reason:"normal"}` to the callee. -/
theorem c1_point_to_point_round_trip (m : Option JVal) (d : JVal) :
    (c1AfterDial m).2 = [.send "s2" (.ring (some "a@x.test") "call-0" m)] ∧
    (aget (c1AfterDial m).1.calls "call-0").map Call.state = some .ringing ∧
    (c1AfterAnswer m).2 = [.send "s1" (.connected "call-0" (some "b@x.test"))] ∧
    (aget (c1AfterAnswer m).1.calls "call-0").map Call.state = some .connected ∧
    (c1AfterMsg m d).2 = [.send "s2" (.msgFrame "call-0" (some "a@x.test") d "text")] ∧
    (c1AfterHangup m d).2 = [.send "s2" (.hangup "call-0" "normal")] ∧
    aget (c1AfterHangup m d).1.calls "call-0" = none :=
  ⟨rfl, rfl, rfl, rfl, rfl, rfl, rfl⟩

/-- C2.  Address uniqueness invariant: the registry invariant holds in the
initial state and is preserved by every event (connection creation, every
inbound frame fully handled from a live session, every timer callback,
transport close and the heartbeat sweep); it entails that at most one live
connection is bound to any address and that every live session resolves to
exactly one connection object. -/
theorem c2_address_uniqueness_invariant :
    RegistryInv RouterState.init ∧
    (∀ (opts : RouterOpts) (s : RouterState) (e : Event),
      RegistryInv s → RegistryInv (applyEvent opts s e).1) ∧
    (∀ s : RouterState, RegistryInv s →
      (∀ sid₁ sid₂ a, sid₁ ∈ s.sessions → sid₂ ∈ s.sessions →
        connAddr s sid₁ = some (some a) → connAddr s sid₂ = some (some a) →
        sid₁ = sid₂) ∧
      (∀ sid, sid ∈ s.sessions → (aget s.conns sid).isSome)) := by
  refine ⟨RegistryInv.init, fun opts s e inv => applyEvent_inv opts s e inv, ?_⟩
  intro s inv
  obtain ⟨i1, i2, i3, i4, i5, i6⟩ := inv
  constructor
  · intro sid₁ sid₂ a h₁ h₂ hc₁ hc₂
    have := (i5 sid₁ a h₁ hc₁).symm.trans (i5 sid₂ a h₂ hc₂)
    injection this
  · intro sid hmem
    have h := i3 sid hmem
    unfold connAddr at h
    cases hc : aget s.conns sid with
    | none => rw [hc] at h; simp at h
    | some c => rfl

/-- C2 witness: the invariant machinery applied at a concrete input. -/
theorem c2_address_uniqueness_invariant_witness :
    RegistryInv (applyEvent defaultOpts RouterState.init (.openConn "s1" 0)).1 :=
  c2_address_uniqueness_invariant.2.1 defaultOpts RouterState.init
    (.openConn "s1" 0) c2_address_uniqueness_invariant.1

/-- C3 counterexample: after the callee has answered (the call is in state
`connected`, not `ringing`), a second ANSWER from the callee is not a no-op as
the claim requires — `handleAnswer` never checks the call state and emits
`CONNECTED` to the caller again. -/
theorem c3_counterexample_second_answer :
    (aget (c1AfterAnswer none).1.calls "call-0").map Call.state = some .connected ∧
    (applyEvent defaultOpts (c1AfterAnswer none).1
        (.frame "s2" 0 (.answer "call-0"))).2 =
      [.send "s1" (.connected "call-0" (some "b@x.test"))] :=
  ⟨rfl, rfl⟩

/-- C3 (amended).  ANSWER is accepted exactly when the sending connection is
the call's callee and the call id is known — with no check that the call is
still `ringing`: it (re)sets the state to `connected`, cancels the ring timer
and emits `CONNECTED{call_id, to: callee.address}` to the caller, even when
the call is already connected.  Unknown call ids and other senders are
no-ops that change no state and emit no frame. -/
theorem c3_answer_semantics (s : RouterState) (sid cid : String) :
    (∀ call, cid ≠ "" → aget s.calls cid = some call → call.callee = sid →
      handleAnswer s sid cid =
        (clearCallTimer (setConnected s call.callId) call.callId,
         [.send call.caller (.connected call.callId
            ((aget s.conns call.callee).bind Conn.address))])) ∧
    (cid ≠ "" → aget s.calls cid = none → handleAnswer s sid cid = (s, [])) ∧
    (∀ call, cid ≠ "" → aget s.calls cid = some call → call.callee ≠ sid →
      handleAnswer s sid cid = (s, [])) := by
  refine ⟨?_, ?_, ?_⟩
  · intro call hcid hcall hcallee
    unfold handleAnswer
    rw [if_neg hcid, hcall]
    dsimp only
    rw [if_neg (not_ne_iff.mpr hcallee)]
    rfl
  · intro hcid hnone
    unfold handleAnswer
    rw [if_neg hcid, hnone]
  · intro call hcid hcall hcallee
    unfold handleAnswer
    rw [if_neg hcid, hcall]
    dsimp only
    rw [if_pos hcallee]

/-- C3 witness: the amended ANSWER semantics applied to the concrete ringing
call of the two-party scenario. -/
theorem c3_answer_semantics_witness :
    handleAnswer (c1AfterDial none).1 "s2" "call-0" =
      (clearCallTimer (setConnected (c1AfterDial none).1 "call-0") "call-0",
       [.send "s1" (.connected "call-0" (some "b@x.test"))]) :=
  (c3_answer_semantics (c1AfterDial none).1 "s2" "call-0").1
    { callId := "call-0", caller := "s1", callee := "s2", state := .ringing,
      metadata := none, endReason := none } (by decide) rfl rfl

/-- C4 counterexample: the caller `a` dials `b` (call-0) and then also dials
`c` — `handleDial` never checks the caller's own `activeCallId`, so call-1
overwrites it.  When call-0's ring timer fires while it is still ringing, the
router does emit `BUSY{timeout}`/`HANGUP{timeout}` and releases the call, but
afterwards the caller's `activeCallId` is NOT empty (it holds call-1) and its
status is busy, refuting the claim's "afterwards both participants'
activeCallIds are empty and their status is available". -/
theorem c4_counterexample_caller_still_busy :
    c4Run.2.drop 5 = [.send "s1" (.busy (some "b@x.test") "timeout"),
                      .send "s2" (.hangup "call-0" "timeout")] ∧
    aget c4Run.1.calls "call-0" = none ∧
    (aget c4Run.1.conns "s1").map Conn.activeCallId = some (some "call-1") ∧
    (aget c4Run.1.conns "s1").map Conn.status = some .busy :=
  ⟨rfl, rfl, rfl, rfl⟩

/-- C4 (amended).  When a ring timer fires for a call that is still `ringing`,
the router emits `BUSY{to: callee.address, reason:"timeout"}` to the caller
and `HANGUP{call_id, reason:"timeout"}` to the callee and releases the call;
each participant whose `activeCallId` still equals the timed-out call's id has
it cleared and its status set to available, while a participant whose
`activeCallId` meanwhile points at another call keeps that call id and its
status.  A call no longer in `ringing` when the timer fires is unaffected. -/
theorem c4_ring_timeout_semantics (s : RouterState) (cid : String) (call : Call)
    (caller callee : Conn) (bAddr : String)
    (hcall : aget s.calls cid = some call) (hid : call.callId = cid)
    (hcaller : aget s.conns call.caller = some caller)
    (hcallee : aget s.conns call.callee = some callee)
    (hne : call.caller ≠ call.callee)
    (haddr : callee.address = some bAddr) (hbne : bAddr ≠ "")
    (hnodup : (s.calls.map Prod.fst).Nodup)
    (hnopending : aget s.pendingByAddress bAddr = none) :
    (call.state = .ringing →
      (handleCallTimeout s cid).2 =
        [.send call.caller (.busy (some bAddr) "timeout"),
         .send call.callee (.hangup cid "timeout")] ∧
      aget (handleCallTimeout s cid).1.calls cid = none ∧
      aget (handleCallTimeout s cid).1.conns call.caller =
        some (if caller.activeCallId = some cid then
          { caller with activeCallId := none, status := .available } else caller) ∧
      aget (handleCallTimeout s cid).1.conns call.callee =
        some (if callee.activeCallId = some cid then
          { callee with activeCallId := none, status := .available } else callee)) ∧
    (call.state ≠ .ringing → handleCallTimeout s cid = (s, [])) := by
  constructor
  · intro hring
    have hstate : ¬ call.state ≠ CallSt.ringing := not_ne_iff.mpr hring
    have hcalleeAddr : (aget s.conns call.callee).bind Conn.address = some bAddr := by
      rw [hcallee]
      dsimp only [Option.bind]
      exact haddr
    -- the updated callee connection object still has address bAddr, and the
    -- pending queue for bAddr is empty, so the resume step is a no-op
    have main : handleCallTimeout s cid =
        (releaseCall (updConn (updConn
            (clearCallTimer (endCall (clearCallTimer s cid) cid "timeout")
              call.callId) call.caller
            (fun c : Conn => if c.activeCallId = some call.callId then
              { c with activeCallId := none, status := PStatus.available } else c))
            call.callee
            (fun c : Conn => if c.activeCallId = some call.callId then
              { c with activeCallId := none, status := PStatus.available } else c))
          call.callId,
         [.send call.caller (.busy (some bAddr) "timeout"),
          .send call.callee (.hangup call.callId "timeout")]) := by
      unfold handleCallTimeout
      rw [hcall]
      dsimp only
      rw [if_neg hstate, hcalleeAddr]
      unfold clearCallState
      dsimp only
      rw [if_pos ?cond]
      case cond =>
        dsimp only [updConn, clearCallTimer, endCall]
        rw [aget_amod, if_pos rfl, aget_amod, if_neg hne, hcallee]
        dsimp only [Option.map, Option.bind]
        split <;> simp [addrTruthy, haddr, hbne]
      rw [resumePendingWakeCalls_noqueue _ call.callee
          (if callee.activeCallId = some call.callId then
            { callee with activeCallId := none, status := PStatus.available } else callee)
          bAddr ?hc2 ?hb2 hbne ?hq2]
      case hc2 =>
        dsimp only [updConn, clearCallTimer, endCall]
        rw [aget_amod, if_pos rfl, aget_amod, if_neg hne, hcallee]
        rfl
      case hb2 =>
        split <;> simp [haddr]
      case hq2 => exact hnopending
      dsimp only
      rw [List.append_nil]
    rw [main]
    refine ⟨by rw [← hid], ?_, ?_, ?_⟩
    · dsimp only [releaseCall, updConn, clearCallTimer, endCall]
      rw [hid]
      rw [aget_adel_self]
      rw [keys_amod]
      exact hnodup
    · dsimp only [releaseCall, updConn, clearCallTimer, endCall]
      rw [aget_amod, if_neg (Ne.symm hne), aget_amod, if_pos rfl, hcaller]
      dsimp only [Option.map]
      rw [hid]
    · dsimp only [releaseCall, updConn, clearCallTimer, endCall]
      rw [aget_amod, if_pos rfl, aget_amod, if_neg hne, hcallee]
      dsimp only [Option.map]
      rw [hid]
  · intro hnotring
    unfold handleCallTimeout
    rw [hcall]
    dsimp only
    rw [if_pos hnotring]

/-- C4 witness: the amended timeout semantics applied to the concrete ringing
call of the two-party scenario. -/
theorem c4_ring_timeout_semantics_witness :
    (handleCallTimeout (c1AfterDial none).1 "call-0").2 =
      [.send "s1" (.busy (some "b@x.test") "timeout"),
       .send "s2" (.hangup "call-0" "timeout")] :=
  ((c4_ring_timeout_semantics (c1AfterDial none).1 "call-0"
      { callId := "call-0", caller := "s1", callee := "s2", state := .ringing,
        metadata := none, endReason := none }
      { sessionId := "s1", address := some "a@x.test", status := .busy,
        metadata := none, lastHeartbeat := 0, activeCallId := some "call-0",
        autoSleep := none, wakeMode := false, wakeHandler := none }
      { sessionId := "s2", address := some "b@x.test", status := .busy,
        metadata := none, lastHeartbeat := 0, activeCallId := some "call-0",
        autoSleep := none, wakeMode := false, wakeHandler := none }
      "b@x.test" rfl rfl rfl rfl (by decide) rfl (by decide) (by decide) rfl).1
    rfl).1

/-- C7 counterexample: while its call is still ringing (`activeCallId`
non-empty), the caller sends `STATUS available`; the router applies it
unchecked, so afterwards the connection's status is `available` although its
`activeCallIds` is non-empty and no explicit busy was set — refuting the
claimed "status = busy iff activeCallIds non-empty or explicit busy"
invariant. -/
theorem c7_counterexample_status_available_mid_call :
    (aget c7Run.1.conns "s1").map Conn.activeCallId = some (some "call-0") ∧
    (aget c7Run.1.conns "s1").map Conn.status = some .available :=
  ⟨rfl, rfl⟩

/-- C7 (amended).  There is no busy-iff invariant: STATUS sets any status even
mid-call, and call teardown restores `available` unconditionally — when a
participant of a non-ended call hangs up, the peer receives
`HANGUP{call_id, reason ?? "normal"}`, the call is released, and each
participant whose `activeCallId` equals the finished call's id has it cleared
and its status set to `available`, overwriting any explicitly set status; a
participant whose `activeCallId` points at a different call keeps both its
call id and its status. -/
theorem c7_hangup_teardown_semantics (s : RouterState) (cid sid : String)
    (reason? : Option String) (call : Call) (caller callee : Conn) (bAddr : String)
    (hcid : cid ≠ "") (hcall : aget s.calls cid = some call)
    (hid : call.callId = cid) (hnotended : call.state ≠ .ended)
    (hsender : sid = call.caller)
    (hcaller : aget s.conns call.caller = some caller)
    (hcallee : aget s.conns call.callee = some callee)
    (hne : call.caller ≠ call.callee)
    (haddr : callee.address = some bAddr) (hbne : bAddr ≠ "")
    (hnodup : (s.calls.map Prod.fst).Nodup)
    (hnopending : aget s.pendingByAddress bAddr = none) :
    (handleHangup s sid cid reason?).2 =
      [.send call.callee (.hangup cid (reason?.getD "normal"))] ∧
    aget (handleHangup s sid cid reason?).1.calls cid = none ∧
    aget (handleHangup s sid cid reason?).1.conns call.caller =
      some (if caller.activeCallId = some cid then
        { caller with activeCallId := none, status := .available } else caller) ∧
    aget (handleHangup s sid cid reason?).1.conns call.callee =
      some (if callee.activeCallId = some cid then
        { callee with activeCallId := none, status := .available } else callee) := by
  have hpart : ¬ (call.caller ≠ sid ∧ call.callee ≠ sid) := by
    intro h
    exact h.1 hsender.symm
  have main : handleHangup s sid cid reason? =
      (releaseCall (updConn (updConn
          (clearCallTimer (endCall (clearCallTimer s call.callId) call.callId
            (reason?.getD "normal")) call.callId) call.caller
          (fun c : Conn => if c.activeCallId = some call.callId then
            { c with activeCallId := none, status := PStatus.available } else c))
          call.callee
          (fun c : Conn => if c.activeCallId = some call.callId then
            { c with activeCallId := none, status := PStatus.available } else c))
        call.callId,
       [.send call.callee (.hangup call.callId (reason?.getD "normal"))]) := by
    unfold handleHangup
    rw [if_neg hcid, hcall]
    dsimp only
    rw [if_neg hnotended, if_neg hpart, if_pos hsender]
    unfold clearCallState
    dsimp only
    rw [if_pos ?cond]
    case cond =>
      dsimp only [updConn, clearCallTimer, endCall]
      rw [aget_amod, if_pos rfl, aget_amod, if_neg hne, hcallee]
      dsimp only [Option.map, Option.bind]
      split <;> simp [addrTruthy, haddr, hbne]
    rw [resumePendingWakeCalls_noqueue _ call.callee
        (if callee.activeCallId = some call.callId then
          { callee with activeCallId := none, status := PStatus.available } else callee)
        bAddr ?hc2 ?hb2 hbne ?hq2]
    case hc2 =>
      dsimp only [updConn, clearCallTimer, endCall]
      rw [aget_amod, if_pos rfl, aget_amod, if_neg hne, hcallee]
      rfl
    case hb2 =>
      split <;> simp [haddr]
    case hq2 => exact hnopending
    dsimp only
    rw [List.append_nil]
  rw [main]
  refine ⟨by rw [← hid], ?_, ?_, ?_⟩
  · dsimp only [releaseCall, updConn, clearCallTimer, endCall]
    rw [hid]
    rw [aget_adel_self]
    rw [keys_amod]
    exact hnodup
  · dsimp only [releaseCall, updConn, clearCallTimer, endCall]
    rw [aget_amod, if_neg (Ne.symm hne), aget_amod, if_pos rfl, hcaller]
    dsimp only [Option.map]
    rw [hid]
  · dsimp only [releaseCall, updConn, clearCallTimer, endCall]
    rw [aget_amod, if_pos rfl, aget_amod, if_neg hne, hcallee]
    dsimp only [Option.map]
    rw [hid]

/-- C7 witness: the hangup-teardown semantics applied to the concrete
connected call of the two-party scenario (where the caller's status is busy
and is overwritten to available). -/
theorem c7_hangup_teardown_semantics_witness :
    (handleHangup (c1AfterAnswer none).1 "s1" "call-0" none).2 =
      [.send "s2" (.hangup "call-0" "normal")] :=
  (c7_hangup_teardown_semantics (c1AfterAnswer none).1 "call-0" "s1" none
    { callId := "call-0", caller := "s1", callee := "s2", state := .connected,
      metadata := none, endReason := none }
    { sessionId := "s1", address := some "a@x.test", status := .busy,
      metadata := none, lastHeartbeat := 0, activeCallId := some "call-0",
      autoSleep := none, wakeMode := false, wakeHandler := none }
    { sessionId := "s2", address := some "b@x.test", status := .busy,
      metadata := none, lastHeartbeat := 0, activeCallId := some "call-0",
      autoSleep := none, wakeMode := false, wakeHandler := none }
    "b@x.test" (by decide) rfl rfl (by decide) rfl rfl rfl (by decide) rfl
    (by decide) (by decide) rfl).1

/-- C6 counterexample: an agent registers `agent@sleep.test` with wake-on-ring
and sleeps, storing a WakeProfile; a second connection then successfully
re-registers the same address supplying its own wake handler.  Because
`handleRegister` deletes a stored profile only on the reinstatement path
(frame without a handler), the profile survives while a live connection holds
the address — refuting both the invariant and the "whether or not the frame
supplies its own wake_handler" clause. -/
theorem c6_counterexample_profile_survives_rebind :
    c6Run.2.drop 2 = [.send "s2" (.registered "agent@sleep.test" "s2")] ∧
    aget c6Run.1.byAddress "agent@sleep.test" = some "s2" ∧
    "s2" ∈ c6Run.1.sessions ∧
    (aget c6Run.1.wakeProfiles "agent@sleep.test").isSome = true :=
  ⟨rfl, rfl, by decide, rfl⟩

theorem wakeProfiles_failPendingWakeCall (s : RouterState) (cid reason : String) :
    (failPendingWakeCall s cid reason).1.wakeProfiles = s.wakeProfiles := by
  unfold failPendingWakeCall
  cases aget s.pendingById cid with
  | none => rfl
  | some pending =>
    dsimp only
    cases aget s.pendingByAddress pending.calleeAddress with
    | none => rfl
    | some queue =>
      dsimp only
      split <;> rfl

theorem wakeProfiles_startCall (s : RouterState) (a b : String)
    (md : Option JVal) (cid : Option String) :
    (startCall s a b md cid).1.wakeProfiles = s.wakeProfiles := rfl

theorem wakeProfiles_resumePendingLoop (fuel : Nat) :
    ∀ (s : RouterState) (c : String),
      (resumePendingLoop fuel s c).1.wakeProfiles = s.wakeProfiles := by
  induction fuel with
  | zero => intro s c; rfl
  | succ n ih =>
    intro s c
    unfold resumePendingLoop
    cases aget s.conns c with
    | none => rfl
    | some callee =>
      dsimp only
      cases callee.address with
      | none => rfl
      | some addr =>
        dsimp only
        split
        · rfl
        · cases aget s.pendingByAddress addr with
          | none => rfl
          | some queue =>
            cases queue with
            | nil => rfl
            | cons pending rest =>
              dsimp only
              split <;> split
              all_goals
                first
                | rw [wakeProfiles_startCall]
                | (dsimp only
                   rw [ih, wakeProfiles_failPendingWakeCall])

theorem wakeProfiles_resumePendingWakeCalls (s : RouterState) (c : String) :
    (resumePendingWakeCalls s c).1.wakeProfiles = s.wakeProfiles :=
  wakeProfiles_resumePendingLoop _ s c

theorem wakeProfiles_registerAddress (s : RouterState) (sid address : String)
    (md : Option JVal) :
    (registerAddress s sid address md).1.wakeProfiles = s.wakeProfiles := by
  unfold registerAddress registerAddressProceed
  cases aget s.conns sid with
  | none => rfl
  | some conn =>
    dsimp only
    cases aget s.byAddress address with
    | none =>
      dsimp only
      cases conn.address with
      | none => rfl
      | some old => dsimp only; split <;> rfl
    | some esid =>
      dsimp only
      split
      · cases conn.address with
        | none => rfl
        | some old => dsimp only; split <;> rfl
      · rfl

/-- C6 (amended).  A successful REGISTER clears the stored WakeProfile for its
address only along the reinstatement path: when the frame supplies no
`wake_handler` and the connection object carries none either.  (The
counterexample shows a REGISTER that supplies its own handler leaves the
stored profile behind, so the claimed invariant does not hold.) -/
theorem c6_register_without_handler_clears_profile (s : RouterState)
    (sid address : String) (md : Option JVal) (conn : Conn)
    (hvalid : isValidAddress address = true)
    (hc : aget s.conns sid = some conn) (hnoh : conn.wakeHandler = none)
    (hnodup : (s.wakeProfiles.map Prod.fst).Nodup) :
    aget (handleRegister s sid address md none none).1.wakeProfiles address
      = none := by
  unfold handleRegister
  rw [if_neg (by simp [hvalid]), hc]
  dsimp only
  rw [if_neg (by simp), hnoh]
  dsimp only
  unfold handleRegisterBind
  dsimp only
  cases hstored : aget s.wakeProfiles address with
  | some stored =>
    dsimp only
    have hwp : ∀ t : RouterState, t.wakeProfiles = adel s.wakeProfiles address →
        aget (if ¬ (registerAddress t sid address md).2 = true
          then ((registerAddress t sid address md).1,
            [Out.send sid (.registerFailed "address_in_use")])
          else
            (let s := updConn (registerAddress t sid address md).1 sid fun c =>
              { c with wakeMode := true, wakeHandler := some stored.handler }
             let out1 : List Out := [Out.send sid (.registered address sid)]
             let r :=
               if addrTruthy ((aget s.conns sid).bind Conn.address) then
                 resumePendingWakeCalls s sid
               else (s, [])
             (r.1, out1 ++ r.2))).1.wakeProfiles address = none := by
      intro t ht
      split
      · rw [wakeProfiles_registerAddress, ht, aget_adel_self _ _ hnodup]
      · dsimp only
        split
        · rw [wakeProfiles_resumePendingWakeCalls]
          dsimp only [updConn]
          rw [wakeProfiles_registerAddress, ht, aget_adel_self _ _ hnodup]
        · dsimp only [updConn]
          rw [wakeProfiles_registerAddress, ht, aget_adel_self _ _ hnodup]
    exact hwp { s with wakeProfiles := adel s.wakeProfiles address } rfl
  | none =>
    dsimp only
    split
    · rw [wakeProfiles_registerAddress]
      exact hstored
    · dsimp only
      split
      · rw [wakeProfiles_resumePendingWakeCalls]
        dsimp only [updConn]
        rw [wakeProfiles_registerAddress]
        exact hstored
      · dsimp only [updConn]
        rw [wakeProfiles_registerAddress]
        exact hstored

/-- C6 witness: the clearing path applied after the wake scenario, where a
profile for `agent@sleep.test` is stored and a handler-less connection
re-registers the address. -/
theorem c6_register_without_handler_clears_profile_witness :
    aget (handleRegister wakeSetupState "s2" "agent@sleep.test" none none
      none).1.wakeProfiles "agent@sleep.test" = none :=
  c6_register_without_handler_clears_profile wakeSetupState "s2"
    "agent@sleep.test" none
    { sessionId := "s2", address := some "caller@x.test", status := .available,
      metadata := none, lastHeartbeat := 0, activeCallId := none,
      autoSleep := none, wakeMode := false, wakeHandler := none }
    (by decide) rfl rfl (by decide)

theorem isDialRateLimited_fields (opts : RouterOpts) (s : RouterState)
    (sid : String) (now : Int) :
    (isDialRateLimited opts s sid now).2.1.conns = s.conns ∧
    (isDialRateLimited opts s sid now).2.1.byAddress = s.byAddress ∧
    (isDialRateLimited opts s sid now).2.1.wakeProfiles = s.wakeProfiles ∧
    (isDialRateLimited opts s sid now).2.1.pendingByAddress = s.pendingByAddress ∧
    (isDialRateLimited opts s sid now).2.1.pendingById = s.pendingById ∧
    (isDialRateLimited opts s sid now).2.1.uuidCounter = s.uuidCounter := by
  unfold isDialRateLimited
  split
  · exact ⟨rfl, rfl, rfl, rfl, rfl, rfl⟩
  · cases aget s.dialCounters sid with
    | none => exact ⟨rfl, rfl, rfl, rfl, rfl, rfl⟩
    | some entry =>
      dsimp only
      split
      · exact ⟨rfl, rfl, rfl, rfl, rfl, rfl⟩
      · split <;> exact ⟨rfl, rfl, rfl, rfl, rfl, rfl⟩

theorem isDialRateLimited_out_nil (opts : RouterOpts) (s : RouterState)
    (sid : String) (now : Int)
    (h : (isDialRateLimited opts s sid now).1 = false) :
    (isDialRateLimited opts s sid now).2.2 = [] := by
  revert h
  unfold isDialRateLimited
  split
  · intro h; rfl
  · cases aget s.dialCounters sid with
    | none => intro h; rfl
    | some entry =>
      dsimp only
      split
      · intro h; rfl
      · split
        · intro h; exact absurd h (by simp)
        · intro h; rfl

/-- C5.  Wake-on-ring dial: for a DIAL from a registered caller (not rate
limited) to an address with no live connection — when a WakeProfile is stored
for that address, the router enqueues a PendingWakeCall carrying a freshly
generated call id and a timer delay of `max(timeout_seconds * 1000, 100)`
milliseconds onto that address's FIFO queue, marks the caller busy with that
call id, invokes the WakeExecutor, and sends the caller no frame; when no
profile is stored, the caller receives `BUSY{to, reason:"no_such_address"}`. -/
theorem c5_wake_on_ring_dial (opts : RouterOpts) (s : RouterState)
    (sid toAddr : String) (now : Int) (metadata : Option JVal) (caller : Conn)
    (a : String) (hto : toAddr ≠ "")
    (hrl : (isDialRateLimited opts s sid now).1 = false)
    (hc : aget s.conns sid = some caller)
    (haddr : caller.address = some a) (hane : a ≠ "")
    (hnolive : aget s.byAddress toAddr = none) :
    (∀ profile, aget s.wakeProfiles toAddr = some profile →
      (handleDial opts s sid now toAddr metadata).2 = [.wakeInvoke profile] ∧
      aget (handleDial opts s sid now toAddr metadata).1.pendingById
          (freshCallId s.uuidCounter) =
        some { callId := freshCallId s.uuidCounter, caller := sid,
               calleeAddress := toAddr, metadata := metadata,
               wakeProfile := profile,
               timerMs := max (profile.handler.timeoutSeconds * 1000) 100 } ∧
      aget (handleDial opts s sid now toAddr metadata).1.pendingByAddress toAddr =
        some (((aget s.pendingByAddress toAddr).getD []) ++
          [{ callId := freshCallId s.uuidCounter, caller := sid,
             calleeAddress := toAddr, metadata := metadata,
             wakeProfile := profile,
             timerMs := max (profile.handler.timeoutSeconds * 1000) 100 }]) ∧
      aget (handleDial opts s sid now toAddr metadata).1.conns sid =
        some { caller with
                activeCallId := some (freshCallId s.uuidCounter)
                status := PStatus.busy } ∧
      (handleDial opts s sid now toAddr metadata).1.uuidCounter
        = s.uuidCounter + 1) ∧
    (aget s.wakeProfiles toAddr = none →
      handleDial opts s sid now toAddr metadata =
        ((isDialRateLimited opts s sid now).2.1,
         [.send sid (.busy (some toAddr) "no_such_address")])) := by
  obtain ⟨hf1, hf2, hf3, hf4, hf5, hf6⟩ := isDialRateLimited_fields opts s sid now
  have hout := isDialRateLimited_out_nil opts s sid now hrl
  have htruthy : addrTruthy caller.address = true := by
    rw [haddr]
    simp [addrTruthy, hane]
  have hmain : handleDial opts s sid now toAddr metadata =
      (let r := tryWakeSleepingAgent (isDialRateLimited opts s sid now).2.1
          sid toAddr metadata
       let cont : RouterState × List Out :=
         if r.1 = true then (r.2.1, r.2.2)
         else (r.2.1, r.2.2 ++ [Out.send sid (.busy (some toAddr) "no_such_address")])
       (cont.1, (isDialRateLimited opts s sid now).2.2 ++ cont.2)) := by
    unfold handleDial
    rw [if_neg hto]
    dsimp only
    rw [if_neg (by rw [hrl]; simp)]
    rw [hf1, hc]
    dsimp only
    rw [if_neg (by rw [htruthy]; simp)]
    rw [hf2, hnolive]
  constructor
  · intro profile hprof
    rw [hmain]
    dsimp only
    unfold tryWakeSleepingAgent
    rw [hf3, hprof]
    dsimp only
    rw [if_pos rfl, hout]
    rw [hf4, hf6]
    refine ⟨rfl, ?_, ?_, ?_, rfl⟩
    · dsimp only [updConn]
      rw [aget_aset, if_pos rfl]
    · dsimp only [updConn]
      rw [aget_aset, if_pos rfl]
    · dsimp only [updConn]
      rw [aget_amod, if_pos rfl, hf1, hc]
      rfl
  · intro hnoprof
    rw [hmain]
    dsimp only
    unfold tryWakeSleepingAgent
    rw [hf3, hnoprof]
    dsimp only
    rw [if_neg (by simp), hout]
    rfl

/-- C5 witness: the wake-dial semantics applied after the concrete wake
scenario, where a profile for `agent@sleep.test` is stored and `caller@x.test`
dials it. -/
theorem c5_wake_on_ring_dial_witness :
    (handleDial defaultOpts wakeSetupState "s2" 0 "agent@sleep.test" none).2 =
      [.wakeInvoke ⟨"agent@sleep.test", demoWakeHandler⟩] :=
  ((c5_wake_on_ring_dial defaultOpts wakeSetupState "s2" "agent@sleep.test" 0
      none
      { sessionId := "s2", address := some "caller@x.test", status := .available,
        metadata := none, lastHeartbeat := 0, activeCallId := none,
        autoSleep := none, wakeMode := false, wakeHandler := none }
      "caller@x.test" (by decide) rfl rfl rfl (by decide) rfl).1
    ⟨"agent@sleep.test", demoWakeHandler⟩ rfl).1

theorem broadcastJoinAll_admits (N : Nat) (cid bcast : String)
    (pre callers : List String)
    (hnd : (pre ++ callers).Nodup) (hlen : pre.length + callers.length ≤ N) :
    broadcastJoinAll ⟨cid, bcast, pre, some N⟩ callers =
      (⟨cid, bcast, pre ++ callers, some N⟩,
       callers.map fun _ => JoinResult.connectedJ cid) := by
  induction callers generalizing pre with
  | nil => simp [broadcastJoinAll]
  | cons c rest ih =>
    have hcpre : c ∉ pre := by
      rcases List.nodup_append.mp hnd with ⟨-, -, hdisj⟩
      intro hmem
      exact hdisj hmem (List.mem_cons_self c rest)
    have hlt : ¬ pre.length ≥ N := by
      simp only [List.length_cons] at hlen
      omega
    have h1 : broadcastJoin ⟨cid, bcast, pre, some N⟩ c =
        (⟨cid, bcast, pre ++ [c], some N⟩, .connectedJ cid) := by
      unfold broadcastJoin
      rw [if_neg (by simp [hcpre])]
      dsimp only
      rw [if_neg hlt]
    have hnd' : ((pre ++ [c]) ++ rest).Nodup := by
      simpa [List.append_assoc] using hnd
    have hlen' : (pre ++ [c]).length + rest.length ≤ N := by
      simp only [List.length_append, List.length_singleton]
      simp only [List.length_cons] at hlen
      omega
    unfold broadcastJoinAll
    rw [h1]
    dsimp only
    rw [ih (pre ++ [c]) hnd' hlen']
    simp [List.append_assoc]

/-- C8.  Broadcast listener cap: starting from a fresh broadcast session with
`maxListeners = N`, joining `N` distinct callers admits every one of them with
a `CONNECTED` carrying the session's shared call id (and they become the
listener list in join order), after which one further distinct caller is
rejected with `BUSY{max_listeners_reached}`. -/
theorem c8_broadcast_listener_cap (N : Nat) (cid bcast : String)
    (callers : List String) (extra : String)
    (hnd : callers.Nodup) (hlen : callers.length = N) (hx : extra ∉ callers) :
    (broadcastJoinAll ⟨cid, bcast, [], some N⟩ callers).2 =
      callers.map (fun _ => JoinResult.connectedJ cid) ∧
    (broadcastJoinAll ⟨cid, bcast, [], some N⟩ callers).1.listeners = callers ∧
    (broadcastJoin (broadcastJoinAll ⟨cid, bcast, [], some N⟩ callers).1 extra).2 =
      JoinResult.busyJ "max_listeners_reached" := by
  have hmain := broadcastJoinAll_admits N cid bcast [] callers
    (by simpa using hnd) (by simp [hlen])
  rw [hmain]
  refine ⟨rfl, by simp, ?_⟩
  unfold broadcastJoin
  dsimp only
  rw [if_neg (by simp [hx])]
  rw [if_pos (by simp [hlen])]

/-- C8 witness: a session capped at two listeners admits `l1` and `l2` and
rejects `l3`. -/
theorem c8_broadcast_listener_cap_witness :
    ((["l1", "l2"] : List String).Nodup ∧ ("l3" : String) ∉ ["l1", "l2"]) ∧
    (broadcastJoinAll ⟨"bc-0", "b@x.test", [], some 2⟩ ["l1", "l2"]).2 =
      ["l1", "l2"].map (fun _ => JoinResult.connectedJ "bc-0") ∧
    (broadcastJoinAll ⟨"bc-0", "b@x.test", [], some 2⟩ ["l1", "l2"]).1.listeners =
      ["l1", "l2"] ∧
    (broadcastJoin (broadcastJoinAll ⟨"bc-0", "b@x.test", [], some 2⟩
        ["l1", "l2"]).1 "l3").2 = JoinResult.busyJ "max_listeners_reached" :=
  ⟨⟨by decide, by decide⟩,
   c8_broadcast_listener_cap 2 "bc-0" "b@x.test" ["l1", "l2"] "l3"
     (by decide) rfl (by decide)⟩

theorem isDialRateLimited_fields2 (opts : RouterOpts) (s : RouterState)
    (sid : String) (now : Int) :
    (isDialRateLimited opts s sid now).2.1.sessions = s.sessions ∧
    (isDialRateLimited opts s sid now).2.1.calls = s.calls ∧
    (isDialRateLimited opts s sid now).2.1.callTimers = s.callTimers := by
  unfold isDialRateLimited
  split
  · exact ⟨rfl, rfl, rfl⟩
  · cases aget s.dialCounters sid with
    | none => exact ⟨rfl, rfl, rfl⟩
    | some entry =>
      dsimp only
      split
      · exact ⟨rfl, rfl, rfl⟩
      · split <;> exact ⟨rfl, rfl, rfl⟩

theorem isDialRateLimited_counters (opts : RouterOpts) (s : RouterState)
    (sid : String) (now : Int) (osid : String) (h : osid ≠ sid) :
    aget (isDialRateLimited opts s sid now).2.1.dialCounters osid =
      aget s.dialCounters osid := by
  unfold isDialRateLimited
  split
  · rfl
  · cases aget s.dialCounters sid with
    | none =>
      dsimp only
      rw [aget_aset, if_neg (Ne.symm h)]
    | some entry =>
      dsimp only
      split
      · dsimp only
        rw [aget_aset, if_neg (Ne.symm h)]
      · split <;> (dsimp only; rw [aget_aset, if_neg (Ne.symm h)])

/-- C10.  A DIAL with a non-empty `to`, sent by a connection with no bound
address that is not rate-limited, is silently dropped: the router emits no
frame to any connection, and the only state change is the dialing session's
own dial rate counter. -/
theorem c10_unregistered_dial_silently_dropped (opts : RouterOpts)
    (s : RouterState) (sid toAddr : String) (now : Int)
    (metadata : Option JVal) (conn : Conn)
    (hto : toAddr ≠ "")
    (hrl : (isDialRateLimited opts s sid now).1 = false)
    (hc : aget s.conns sid = some conn)
    (haddr : conn.address = none) :
    handleDial opts s sid now toAddr metadata =
      ((isDialRateLimited opts s sid now).2.1, []) ∧
    (isDialRateLimited opts s sid now).2.1.conns = s.conns ∧
    (isDialRateLimited opts s sid now).2.1.sessions = s.sessions ∧
    (isDialRateLimited opts s sid now).2.1.byAddress = s.byAddress ∧
    (isDialRateLimited opts s sid now).2.1.calls = s.calls ∧
    (isDialRateLimited opts s sid now).2.1.callTimers = s.callTimers ∧
    (isDialRateLimited opts s sid now).2.1.wakeProfiles = s.wakeProfiles ∧
    (isDialRateLimited opts s sid now).2.1.pendingByAddress = s.pendingByAddress ∧
    (isDialRateLimited opts s sid now).2.1.pendingById = s.pendingById ∧
    (isDialRateLimited opts s sid now).2.1.uuidCounter = s.uuidCounter ∧
    ∀ osid, osid ≠ sid →
      aget (isDialRateLimited opts s sid now).2.1.dialCounters osid =
        aget s.dialCounters osid := by
  obtain ⟨hf1, hf2, hf3, hf4, hf5, hf6⟩ := isDialRateLimited_fields opts s sid now
  obtain ⟨hg1, hg2, hg3⟩ := isDialRateLimited_fields2 opts s sid now
  have hout := isDialRateLimited_out_nil opts s sid now hrl
  refine ⟨?_, hf1, hg1, hf2, hg2, hg3, hf3, hf4, hf5, hf6,
    fun osid ho => isDialRateLimited_counters opts s sid now osid ho⟩
  unfold handleDial
  rw [if_neg hto]
  dsimp only
  rw [if_neg (by rw [hrl]; simp)]
  rw [hf1, hc]
  dsimp only
  rw [if_pos (by rw [haddr]; simp [addrTruthy])]
  rw [hout]
  rfl

/-- C10 witness: a freshly opened, never-registered session dials a valid
address and the router answers with nothing at all. -/
theorem c10_unregistered_dial_silently_dropped_witness :
    handleDial defaultOpts
        (applyEvent defaultOpts RouterState.init (.openConn "s1" 0)).1
        "s1" 0 "b@x.test" none =
      ((isDialRateLimited defaultOpts
          (applyEvent defaultOpts RouterState.init (.openConn "s1" 0)).1
          "s1" 0).2.1, []) :=
  (c10_unregistered_dial_silently_dropped defaultOpts
    (applyEvent defaultOpts RouterState.init (.openConn "s1" 0)).1
    "s1" "b@x.test" 0 none { sessionId := "s1" }
    (by decide) rfl rfl rfl).1

theorem jsToLowerCase_eq_empty_iff (d : String) :
    jsToLowerCase d = "" ↔ d = "" := by
  constructor
  · intro h
    obtain ⟨l⟩ := d
    cases l with
    | nil => rfl
    | cons c cs =>
      exfalso
      have h' : List.map Char.toLower (c :: cs) = ([] : List Char) :=
        congrArg String.data h
      simp at h'
  · intro h
    subst h
    rfl

theorem mem_stringCapabilities (m : Option JVal) (r : String) :
    r ∈ stringCapabilities m ↔ JVal.str r ∈ rawCapabilities m := by
  unfold stringCapabilities
  rw [List.mem_filterMap]
  constructor
  · rintro ⟨a, ha, hf⟩
    cases a with
    | str t =>
      injection hf with hf
      subst hf
      exact ha
    | null => cases hf
    | bool b => cases hf
    | num q => cases hf
    | arr xs => cases hf
    | obj fs => cases hf
  · intro h
    exact ⟨JVal.str r, h, rfl⟩

theorem matchesPresenceQuery_iff_spec (opts : RouterOpts) (conn : Conn)
    (query : PresenceQuery) (hnear : query.near = none)
    (hdom : query.domain ≠ some "") :
    matchesPresenceQuery opts conn query = true ↔
      (addrTruthy conn.address = true ∧ specDomainMatches conn query ∧
        specCapsMatch conn query) := by
  unfold matchesPresenceQuery
  by_cases ha : addrTruthy conn.address = true
  case neg =>
    rw [if_pos ha]
    simp only [Bool.false_eq_true, false_iff]
    rintro ⟨h1, -, -⟩
    exact ha h1
  case pos =>
    rw [if_neg (not_not_intro ha)]
    rw [hnear]
    dsimp only
    simp only [Bool.and_true, Bool.and_eq_true]
    constructor
    · rintro ⟨hA, hB⟩
      refine ⟨ha, ?_, ?_⟩
      · intro d hdc
        rw [hdc] at hA
        dsimp only at hA
        have hdne : d ≠ "" := fun h => hdom (h ▸ hdc)
        rw [if_neg hdne] at hA
        cases hsp : (splitOnChar '@' (conn.address.getD ""))[1]? with
        | none => rw [hsp] at hA; cases hA
        | some dp =>
          rw [hsp] at hA
          dsimp only at hA
          by_cases hdp : dp = ""
          · rw [if_pos hdp] at hA; cases hA
          · rw [if_neg hdp] at hA
            exact ⟨dp, rfl, eq_of_beq hA⟩
      · intro req hrc r hr
        rw [hrc] at hB
        dsimp only at hB
        have hmem := List.all_eq_true.mp hB r hr
        simp at hmem
        exact (mem_stringCapabilities conn.metadata r).mp hmem
    · rintro ⟨-, h1, h2⟩
      constructor
      · cases hd : query.domain with
        | none => rfl
        | some d =>
          dsimp only
          have hdne : d ≠ "" := fun h => hdom (h ▸ hd)
          rw [if_neg hdne]
          obtain ⟨dp, hsp, hlow⟩ := h1 d hd
          rw [hsp]
          dsimp only
          have hdpne : dp ≠ "" := by
            intro hh
            subst hh
            exact hdne ((jsToLowerCase_eq_empty_iff d).mp
              (hlow.symm.trans (rfl : jsToLowerCase "" = "")))
          rw [if_neg hdpne]
          exact beq_of_eq hlow
      · cases hcap : query.capabilities with
        | none => rfl
        | some req =>
          dsimp only
          rw [List.all_eq_true]
          intro r hr
          simpa using (mem_stringCapabilities conn.metadata r).mpr (h2 req hcap r hr)

/-- C9 counterexample: in the two-party presence scenario, a query whose
`domain` is the empty string is JS-falsy, so the router skips the domain
filter entirely and returns the `u@e.test` entry — even though the spec-side
domain predicate rejects it (no address has an empty domain part). -/
theorem c9_counterexample_empty_domain :
    (handlePresence defaultOpts c9State "s1"
        (some { domain := some "", capabilities := none, near := none })).2 =
      [Out.send "s1" (.presenceResult
        [{ address := "u@e.test", status := .available, metadata := .obj [] }])] ∧
    aget c9State.conns "s2" = some
      { sessionId := "s2", address := some "u@e.test", status := .available,
        metadata := none, lastHeartbeat := 0, activeCallId := none,
        autoSleep := none, wakeMode := false, wakeHandler := none } ∧
    ¬ specDomainMatches
      { sessionId := "s2", address := some "u@e.test", status := .available,
        metadata := none, lastHeartbeat := 0, activeCallId := none,
        autoSleep := none, wakeMode := false, wakeHandler := none }
      { domain := some "", capabilities := none, near := none } := by
  refine ⟨rfl, rfl, ?_⟩
  intro hspec
  obtain ⟨dp, hdp, heq⟩ := hspec "" rfl
  have hdp' : some "e.test" = some dp := Eq.trans (by decide) hdp
  injection hdp' with hdp''
  rw [← hdp''] at heq
  exact absurd heq (by decide)

/-- C9.  Presence query semantics, amended: a PRESENCE frame from a
connection with no bound address gets `ERROR{not_registered}`; from a
registered requester, with no `near` filter and a domain filter that is not
the JS-falsy empty string, the reply is a `PRESENCE_RESULT` whose entries are
exactly the live connections with a bound address other than the requester
whose address domain matches `query.domain` case-insensitively (when
supplied) and whose `metadata.capabilities` contains every required
capability string (when supplied). -/
theorem c9_presence_query_semantics (opts : RouterOpts) (s : RouterState)
    (sid : String) (query : PresenceQuery) (conn : Conn)
    (hc : aget s.conns sid = some conn)
    (hnear : query.near = none) (hdom : query.domain ≠ some "") :
    (addrTruthy conn.address = false →
      handlePresence opts s sid (some query) =
        (s, [.send sid (.errorFrame "not_registered" "PRESENCE"
              "Registration is required before requesting presence")])) ∧
    (addrTruthy conn.address = true →
      handlePresence opts s sid (some query) =
        (s, [.send sid (.presenceResult (presenceResults opts s sid query))])) ∧
    ∀ e : PresenceEntry, e ∈ presenceResults opts s sid query ↔
      ∃ osid other, osid ∈ s.sessions ∧ aget s.conns osid = some other ∧
        addrTruthy other.address = true ∧ osid ≠ sid ∧
        specDomainMatches other query ∧ specCapsMatch other query ∧
        e = { address := other.address.getD "", status := other.status,
              metadata := other.metadata.getD (.obj []) } := by
  refine ⟨?_, ?_, ?_⟩
  · intro hfalse
    unfold handlePresence
    rw [hc]
    dsimp only
    rw [if_pos (by rw [hfalse]; simp)]
  · intro htrue
    unfold handlePresence
    rw [hc]
    dsimp only
    rw [if_neg (by rw [htrue]; simp)]
    simp only [Option.getD_some]
    rw [hnear]
  · intro e
    unfold presenceResults
    rw [List.mem_filterMap]
    constructor
    · rintro ⟨osid, hmem, hf⟩
      cases hag : aget s.conns osid with
      | none => rw [hag] at hf; cases hf
      | some other =>
        rw [hag] at hf
        dsimp only at hf
        by_cases htr : addrTruthy other.address = true
        case neg => rw [if_pos htr] at hf; cases hf
        case pos =>
        rw [if_neg (not_not_intro htr)] at hf
        by_cases hosid : osid = sid
        case pos => rw [if_pos hosid] at hf; cases hf
        case neg =>
        rw [if_neg hosid] at hf
        by_cases hm : matchesPresenceQuery opts other query = true
        case neg => rw [if_pos hm] at hf; cases hf
        case pos =>
        rw [if_neg (not_not_intro hm)] at hf
        injection hf with hf
        obtain ⟨-, h1, h2⟩ :=
          (matchesPresenceQuery_iff_spec opts other query hnear hdom).mp hm
        exact ⟨osid, other, hmem, hag, htr, hosid, h1, h2, hf.symm⟩
    · rintro ⟨osid, other, hmem, hag, htr, hosid, h1, h2, he⟩
      refine ⟨osid, hmem, ?_⟩
      rw [hag]
      dsimp only
      rw [if_neg (not_not_intro htr)]
      rw [if_neg hosid]
      rw [if_neg (not_not_intro
        ((matchesPresenceQuery_iff_spec opts other query hnear hdom).mpr
          ⟨htr, h1, h2⟩))]
      rw [he]

/-- C9 witness: the registered requester `r@d.test` queries for domain
`e.test` and receives the `PRESENCE_RESULT` reply. -/
theorem c9_presence_query_semantics_witness :
    handlePresence defaultOpts c9State "s1"
        (some { domain := some "e.test", capabilities := none, near := none }) =
      (c9State,
       [.send "s1" (.presenceResult (presenceResults defaultOpts c9State "s1"
          { domain := some "e.test", capabilities := none, near := none }))]) :=
  (c9_presence_query_semantics defaultOpts c9State "s1"
    { domain := some "e.test", capabilities := none, near := none }
    { sessionId := "s1", address := some "r@d.test", status := .available,
      metadata := none, lastHeartbeat := 0, activeCallId := none,
      autoSleep := none, wakeMode := false, wakeHandler := none }
    rfl rfl (by decide)).2.1 rfl

end SystemX
